import Mathlib

/-!
Verification of the platform-fighter simulation core.

This file gives a shallow embedding, in Lean 4, of the parts of the game
relevant to the properties under scrutiny:

* `src/src/characters/base_character.py` — the base `Character` state
  machine: `update`, `handle_input`, `perform_attack`,
  `update_attack_timing`, `create_attack_hitbox`, `end_attack`,
  `change_state`, `take_damage`;
* `src/src/characters/heavy.py` — `Heavy.perform_attack` and
  `Heavy.take_damage` (super-armor override);
* `src/src/characters/speedster.py` — `Speedster.perform_attack` and
  `Speedster.update_multihit_attacks`;
* `src/src/physics/physics_manager.py` — `check_platform_landing`,
  `check_blast_zone_ko` (with the KO bookkeeping of
  `PhysicsManager.update`), and the multi-hit branch of
  `check_combat_collisions`;
* `src/src/input/input_manager.py` — `PlayerInput.get_attack_direction`.

Numbers: the frame/update machinery uses `ℚ` (Python floats on the values
that actually occur here are exact binary fractions, and every constant in
the source is a decimal literal; `ℚ` keeps the embedding executable so
concrete runs can be settled by `decide`/`rfl`).  The damage path uses `ℝ`
because `take_damage` computes `((p - 80) / 50) ** 1.5`, a real exponent.

Purely visual bookkeeping (`update_animations`, sprite selection,
rendering) mutates only animation fields that no property mentions and is
omitted; `hit_flash_timer` and `screen_shake_intensity` are kept because
`take_damage` writes them.
-/

namespace Fighter

/-- All character states of `CharacterState` in `base_character.py`. -/
inductive CState where
  | idle | walking | running | jumping | falling | landing | crouching
  | lightAttack | heavyAttack | sideSpecial | upSpecial | downSpecial | neutralSpecial
  | blocking | hitStun | knockdown
  | grabbing | grabbed
deriving DecidableEq

/-- One player's button snapshot (the boolean dictionary of `PlayerInput`). -/
structure Buttons where
  left : Bool
  right : Bool
  up : Bool
  down : Bool
  attack : Bool
  grab : Bool
deriving DecidableEq

/-- `PlayerInput.current_inputs` / `PlayerInput.previous_inputs`:
`is_pressed a` reads `cur`, `was_just_pressed a` is `cur ∧ ¬ prev`. -/
structure InputSnapshot where
  cur : Buttons
  prev : Buttons
deriving DecidableEq

/-- `PlayerInput.get_attack_direction` (input_manager.py, lines 202-216). -/
def getAttackDirection (i : InputSnapshot) : String :=
  if i.cur.up then (if i.cur.grab then ("up_special") else ("up"))
  else if i.cur.down then (if i.cur.grab then ("down_special") else ("down"))
  else if i.cur.left ∨ i.cur.right then (if i.cur.grab then ("side_special") else ("side"))
  else (if i.cur.grab then ("neutral_special") else ("neutral"))

/-- An attack descriptor: the `current_attack` dictionaries of
`perform_attack` in the three character classes.  Keys that a given
dictionary omits get the same defaults that the Python `.get(key, default)`
reads use (`is_multihit` defaults to `False`, `hit_interval` to its reader's
default, flags to `False`). -/
structure Attack where
  atype : String
  startup_frames : ℕ
  active_frames : ℕ
  recovery_frames : ℕ
  damage : ℚ
  knockback : ℚ
  arange : ℚ := 0
  is_multihit : Bool := false
  hit_interval : ℤ := 1
  has_movement : Bool := false
  is_buff : Bool := false
  buff_duration : ℕ := 0
  is_body_slam : Bool := false
  has_armor : Bool := false
  armor_frames : ℚ := 0
  is_stance : Bool := false
  stance_duration : ℚ := 0
  has_shockwave : Bool := false
  knockback_angle : Option ℚ := none
deriving DecidableEq

/-- A hitbox dictionary as appended to `active_hitboxes` by
`create_attack_hitbox` (the `owner` back-pointer is implicit: in this
embedding each hitbox list is stored on its owning character). -/
structure HB where
  x : ℚ
  y : ℚ
  width : ℚ
  height : ℚ
  damage : ℚ
  knockback : ℚ
  knockback_angle : ℚ
  frames_remaining : ℤ
  is_multihit : Bool := false
  hit_interval : ℤ := 1
  last_hit_frame : ℤ := 0
deriving DecidableEq

/-- The base `Character` fields touched by `update`, `handle_input`,
`perform_attack` and attack timing.  Stat constants that `__init__` fixes
once and never mutates (`max_walk_speed`, `jump_strength`, …) are embedded
as the named constants below rather than as record fields. -/
structure CharState where
  position : ℚ × ℚ
  velocity : ℚ × ℚ
  facing_right : Bool
  on_ground : Bool
  can_jump : Bool
  coyote_time : ℚ
  current_state : CState
  previous_state : CState
  state_timer : ℚ
  can_act : Bool
  is_attacking : Bool
  attack_state_frames : ℕ
  hit_stun_timer : ℚ
  invincibility_timer : ℚ
  active_hitboxes : List HB
  current_attack : Option Attack
  attack_hitbox_created : Bool
  hit_flash_timer : ℚ
  screen_shake_intensity : ℚ
  respawn_invincibility : ℚ
  player_id : ℕ
  lives : ℕ
  damage_percent : ℚ
deriving DecidableEq

/-! Base `Character.__init__` movement constants. -/

def maxWalkSpeed : ℚ := 8
def maxRunSpeed : ℚ := 12
def groundAcceleration : ℚ := 1.2
def groundDeceleration : ℚ := 1.8
def airAcceleration : ℚ := 0.6
def airDeceleration : ℚ := 0.3
def jumpStrength : ℚ := 15
def shortHopStrength : ℚ := 8

/-- `np.sign` on rationals. -/
def sgn (q : ℚ) : ℚ := if 0 < q then 1 else if q < 0 then -1 else 0

/-- `Character.change_state` (base_character.py, lines 415-440).  The inner
`if self.state_timer > 0.2` of the `LANDING` arm is dead code — the timer
was just reset to `0.0` two lines above — and therefore drops out. -/
def changeState (ns : CState) (c : CharState) : CharState :=
  if ns = c.current_state then c
  else
    let c := { c with previous_state := c.current_state, current_state := ns,
                      state_timer := 0 }
    if ns = CState.landing then
      { c with can_act := false }
    else if ns = CState.idle ∨ ns = CState.walking ∨ ns = CState.running then
      { c with can_act := true, is_attacking := false, attack_state_frames := 0 }
    else if ns = CState.falling then
      { c with on_ground := false }
    else c

/-- `Character.apply_ground_movement` (lines 315-375). -/
def applyGroundMovement (h : ℚ) (c : CharState) : CharState :=
  if h ≠ 0 then
    let target : ℚ := h * maxWalkSpeed
    let target : ℚ :=
      if |c.velocity.1| > maxWalkSpeed * 0.8 ∧ h * c.velocity.1 > 0 then
        h * maxRunSpeed
      else target
    let diff := target - c.velocity.1
    let accel := if |diff| > 0.1 then groundAcceleration else groundDeceleration
    let v := c.velocity.1 + sgn diff * min |diff| accel
    let c := { c with velocity := (v, c.velocity.2) }
    if |v| > maxWalkSpeed * 1.2 then changeState CState.running c
    else if |v| > 0.5 then changeState CState.walking c
    else c
  else
    if |c.velocity.1| > 0.1 then
      { c with velocity := (c.velocity.1 * (1 - groundDeceleration), c.velocity.2) }
    else
      let c := { c with velocity := (0, c.velocity.2) }
      if c.current_state = CState.walking ∨ c.current_state = CState.running then
        changeState CState.idle c
      else c

/-- `Character.apply_air_movement` (lines 377-390). -/
def applyAirMovement (h : ℚ) (c : CharState) : CharState :=
  if h ≠ 0 then
    let target := h * maxWalkSpeed * 0.8
    let diff := target - c.velocity.1
    { c with velocity := (c.velocity.1 + sgn diff * min |diff| airAcceleration,
                          c.velocity.2) }
  else
    if |c.velocity.1| > 0.1 then
      { c with velocity := (c.velocity.1 * (1 - airDeceleration), c.velocity.2) }
    else c

/-! The four base attack descriptors of `Character.perform_attack`. -/

def neutralAttack : Attack :=
  { atype := "neutral", startup_frames := 6, active_frames := 4,
    recovery_frames := 8, damage := 8, knockback := 5 }

def sideAttack : Attack :=
  { atype := "side", startup_frames := 8, active_frames := 5,
    recovery_frames := 12, damage := 12, knockback := 8 }

def upAttack : Attack :=
  { atype := "up", startup_frames := 10, active_frames := 6,
    recovery_frames := 15, damage := 10, knockback := 12 }

def downAttack : Attack :=
  { atype := "down", startup_frames := 12, active_frames := 3,
    recovery_frames := 20, damage := 15, knockback := 10 }

/-- `Character.perform_attack` (lines 442-498).  A direction outside the
four handled strings falls through the `if/elif` chain, leaving
`current_attack` untouched, but still keeps the flag mutations performed
before the chain. -/
def basePerformAttack (dir : String) (c : CharState) : CharState :=
  if ¬c.can_act ∨ c.is_attacking then c
  else
    let c := { c with is_attacking := true, attack_state_frames := 0, can_act := false }
    let c :=
      if dir = "neutral" then
        { changeState CState.lightAttack c with current_attack := some neutralAttack }
      else if dir = "side" then
        { changeState CState.heavyAttack c with current_attack := some sideAttack }
      else if dir = "up" then
        { changeState CState.upSpecial c with current_attack := some upAttack }
      else if dir = "down" then
        { changeState CState.downSpecial c with current_attack := some downAttack }
      else c
    { c with attack_hitbox_created := false }

/-- `Character.get_knockback_angle` (lines 820-829), as a function of the
current attack. -/
def getKnockbackAngle (a : Attack) : ℚ :=
  if a.atype = "up" then -75 else if a.atype = "down" then 45 else 0

/-- `Character.create_attack_hitbox` (lines 782-818). -/
def createAttackHitbox (c : CharState) : CharState :=
  match c.current_attack with
  | none => c
  | some a =>
    let offx : ℚ := if c.facing_right then 60 else -60
    let offy : ℚ := -40
    let off : ℚ × ℚ :=
      if a.atype = "up" then (0, -80)
      else if a.atype = "down" then (0, -10)
      else (offx, offy)
    let hb : HB :=
      { x := c.position.1 + off.1, y := c.position.2 + off.2,
        width := 50, height := 50,
        damage := a.damage, knockback := a.knockback,
        knockback_angle := getKnockbackAngle a,
        frames_remaining := (a.active_frames : ℤ) }
    { c with active_hitboxes := c.active_hitboxes ++ [hb] }

/-- `Character.end_attack` (lines 831-846). -/
def endAttack (c : CharState) : CharState :=
  let c := { c with is_attacking := false, can_act := true,
                    current_attack := none, attack_hitbox_created := false }
  if c.on_ground then changeState CState.idle c else changeState CState.falling c

/-- `Character.update_attack_timing` (lines 758-780). -/
def updateAttackTiming (c : CharState) : CharState :=
  match c.current_attack with
  | none => c
  | some a =>
    if c.attack_state_frames < a.startup_frames then c
    else if c.attack_state_frames < a.startup_frames + a.active_frames then
      if ¬c.attack_hitbox_created then
        { createAttackHitbox c with attack_hitbox_created := true }
      else c
    else if c.attack_state_frames ≥ a.startup_frames + a.active_frames + a.recovery_frames then
      endAttack c
    else c

/-- The horizontal input value combined from left/right
(`handle_input`, lines 260-270). -/
def horizontalInput (i : InputSnapshot) : ℚ :=
  (if i.cur.left then -1 else 0) + (if i.cur.right then 1 else 0)

/-- The facing updates performed while reading left/right
(`handle_input`, lines 261-269): left sets `facing_right = False`, then
right sets it `True`. -/
def facingStep (i : InputSnapshot) (c : CharState) : CharState :=
  let c := if i.cur.left then { c with facing_right := false } else c
  if i.cur.right then { c with facing_right := true } else c

/-- Ground or air movement dispatch (`handle_input`, lines 274-280). -/
def moveStep (i : InputSnapshot) (c : CharState) : CharState :=
  if c.on_ground then applyGroundMovement (horizontalInput i) c
  else applyAirMovement (horizontalInput i) c

/-- Jumping with coyote time (`handle_input`, lines 282-293).  The
short-hop arm is dead with this input model: `was_just_pressed` implies
`is_pressed` on the same snapshot. -/
def jumpStep (i : InputSnapshot) (c : CharState) : CharState :=
  if i.cur.up ∧ ¬i.prev.up then
    if c.on_ground ∨ c.coyote_time > 0 then
      let power := if ¬i.cur.up then shortHopStrength else jumpStrength
      let c := { c with velocity := (c.velocity.1, -power), on_ground := false,
                        can_jump := false, coyote_time := 0 }
      changeState CState.jumping c
    else c
  else c

/-- Variable jump height (`handle_input`, lines 295-298): the upward
velocity is halved whenever the button is up while ascending in the
Jumping state. -/
def jumpCutStep (i : InputSnapshot) (c : CharState) : CharState :=
  if ¬i.cur.up ∧ c.velocity.2 < 0 ∧ c.current_state = CState.jumping then
    { c with velocity := (c.velocity.1, c.velocity.2 * 0.5) }
  else c

/-- Crouching (`handle_input`, lines 300-307). -/
def crouchStep (i : InputSnapshot) (c : CharState) : CharState :=
  if i.cur.down ∧ c.on_ground then
    if c.current_state ≠ CState.crouching then changeState CState.crouching c else c
  else if c.current_state = CState.crouching then changeState CState.idle c
  else c

/-- Attack trigger (`handle_input`, lines 309-313). -/
def attackStep (i : InputSnapshot) (c : CharState) : CharState :=
  if i.cur.attack ∧ ¬i.prev.attack then
    basePerformAttack (getAttackDirection i) c
  else c

/-- `Character.handle_input` (lines 253-313): the steps above in
statement order. -/
def handleInput (i : InputSnapshot) (c : CharState) : CharState :=
  attackStep i (crouchStep i (jumpCutStep i (jumpStep i (moveStep i (facingStep i c)))))

/-- First phase of `Character.update` (lines 224-233): timer decay and
visual-effect decay. -/
def decayTimers (dt : ℚ) (c : CharState) : CharState :=
  { c with state_timer := c.state_timer + dt,
           hit_stun_timer := max 0 (c.hit_stun_timer - dt),
           invincibility_timer := max 0 (c.invincibility_timer - dt),
           coyote_time := max 0 (c.coyote_time - dt),
           respawn_invincibility := max 0 (c.respawn_invincibility - 1),
           hit_flash_timer := max 0 (c.hit_flash_timer - dt),
           screen_shake_intensity := c.screen_shake_intensity * 0.9 }

/-- The gated input call of `Character.update` (lines 235-237). -/
def inputPhase (i : InputSnapshot) (c : CharState) : CharState :=
  if c.can_act ∧ c.hit_stun_timer ≤ 0 then handleInput i c else c

/-- The coyote-time branch of `Character.update_physics` (lines 402-407). -/
def coyoteStep (dt : ℚ) (c : CharState) : CharState :=
  if ¬c.on_ground ∧ c.coyote_time > 0 then
    let ct := c.coyote_time - dt
    { c with coyote_time := if ct ≤ 0 then 0 else ct }
  else c

/-- `Character.update_physics` (lines 392-413): coyote handling plus the
landing transition (gravity and positions live in the physics manager). -/
def updatePhysics (dt : ℚ) (c : CharState) : CharState :=
  let c := coyoteStep dt c
  if c.on_ground ∧ c.current_state = CState.falling then
    { changeState CState.landing c with can_jump := true }
  else c

/-- `Character.update_state_machine` (lines 595-614): three independent
`if` statements. -/
def updateStateMachine (c : CharState) : CharState :=
  let c :=
    if c.current_state = CState.landing ∧ c.state_timer > 0.2 then
      { changeState CState.idle c with can_act := true }
    else c
  let c :=
    if c.current_state = CState.jumping ∧ c.velocity.2 > 0 then
      changeState CState.falling c
    else c
  if c.current_state = CState.hitStun ∧ c.hit_stun_timer ≤ 0 then
    let c := { c with can_act := true }
    if c.on_ground then changeState CState.idle c else changeState CState.falling c
  else c

/-- The attack-frame tail of `Character.update` (lines 248-251). -/
def attackFramePhase (c : CharState) : CharState :=
  if c.is_attacking then
    updateAttackTiming { c with attack_state_frames := c.attack_state_frames + 1 }
  else c

/-- `Character.update` (lines 220-251).  `update_animations` is omitted:
it touches only animation bookkeeping that no property mentions. -/
def charUpdate (dt : ℚ) (i : InputSnapshot) (c : CharState) : CharState :=
  attackFramePhase (updateStateMachine (updatePhysics dt (inputPhase i (decayTimers dt c))))

/-- Iterate `charUpdate` over a stream of per-tick `(dt, input)` pairs. -/
def runTicks (seq : ℕ → ℚ × InputSnapshot) (c : CharState) : ℕ → CharState
  | 0 => c
  | n + 1 => charUpdate (seq n).1 (seq n).2 (runTicks seq c n)

/-!
## The damage path, over `ℝ`

`Character.take_damage` computes `((damage_percent - 80) / 50) ** 1.5`, a
real exponent, so the fields it reads and writes are embedded over `ℝ`.
-/

/-- The `Character` fields read or written by `take_damage` and by the
`change_state` call it makes. -/
structure DChar where
  damage_percent : ℝ
  velocity : ℝ × ℝ
  weight : ℝ
  hit_stun_timer : ℝ
  invincibility_timer : ℝ
  respawn_invincibility : ℝ
  can_act : Bool
  is_attacking : Bool
  attack_state_frames : ℕ
  on_ground : Bool
  hit_flash_timer : ℝ
  screen_shake_intensity : ℝ
  current_state : CState
  previous_state : CState
  state_timer : ℝ

/-- `Character.change_state` restricted to the fields of `DChar` (the
real-valued follower of `changeState` above). -/
noncomputable def dmgChangeState (ns : CState) (c : DChar) : DChar :=
  if ns = c.current_state then c
  else
    let c := { c with previous_state := c.current_state, current_state := ns,
                      state_timer := 0 }
    if ns = CState.landing then
      { c with can_act := false }
    else if ns = CState.idle ∨ ns = CState.walking ∨ ns = CState.running then
      { c with can_act := true, is_attacking := false, attack_state_frames := 0 }
    else if ns = CState.falling then
      { c with on_ground := false }
    else c

/-- `Character.take_damage` (base_character.py, lines 500-539). -/
noncomputable def takeDamage (damage : ℝ) (kb : ℝ × ℝ) (c : DChar) : DChar :=
  if c.invincibility_timer > 0 ∨ c.respawn_invincibility > 0 then c
  else
    let dp := c.damage_percent + damage
    let m0 : ℝ := 1 + dp / 70
    let m : ℝ := if dp > 100 then m0 + ((dp - 80) / 50) ^ (1.5 : ℝ) else m0
    let c := { c with
      damage_percent := dp,
      velocity := (c.velocity.1 + kb.1 * m / c.weight,
                   c.velocity.2 + kb.2 * m / c.weight),
      hit_stun_timer := (damage + dp * 0.02) * 0.01,
      can_act := false,
      hit_flash_timer := 0.2,
      screen_shake_intensity := damage * 0.5,
      invincibility_timer := 0.3 }
    dmgChangeState CState.hitStun c

/-- The `Heavy` fields used by its `take_damage` override. -/
structure HeavyDChar extends DChar where
  has_super_armor : Bool
  damage_multiplier : ℝ

/-- `Heavy.take_damage` (heavy.py, lines 348-362): the super-armor branch
runs first and does not consult the invincibility timers. -/
noncomputable def heavyTakeDamage (damage : ℝ) (kb : ℝ × ℝ) (h : HeavyDChar) : HeavyDChar :=
  if h.has_super_armor then
    { h with damage_percent := h.damage_percent + damage * h.damage_multiplier,
             hit_flash_timer := 0.1 }
  else
    { h with toDChar := takeDamage damage kb h.toDChar }

/-!
## Platform landing (physics_manager.py)
-/

/-- The character fields read by `check_platform_landing`. -/
structure PhysChar where
  position : ℚ × ℚ
  velocity : ℚ × ℚ
  pwidth : ℚ
  on_ground : Bool
deriving DecidableEq

/-- A stage platform rectangle (`Platform` in base_stage.py). -/
structure Platform where
  x : ℚ
  y : ℚ
  width : ℚ
  height : ℚ
deriving DecidableEq

/-- `PhysicsManager.check_platform_landing` (lines 413-460): returns the
Python boolean result together with the mutated character. -/
def checkPlatformLanding (c : PhysChar) (pl : Platform) : Bool × PhysChar :=
  let charBottom := c.position.2
  let charLeft := c.position.1 - c.pwidth / 2
  let charRight := c.position.1 + c.pwidth / 2
  let vertical := pl.y - 5 ≤ charBottom ∧ charBottom ≤ pl.y + 10
  let horizontal := charRight > pl.x + 5 ∧ charLeft < pl.x + pl.width - 5
  if vertical ∧ horizontal then
    let c :=
      if c.velocity.2 > 0 then
        { c with position := (c.position.1, pl.y),
                 velocity := (c.velocity.1, 0), on_ground := true }
      else c
    (true, { c with on_ground := true })
  else (false, c)

/-!
## Blast-zone KO bookkeeping (physics_manager.py)

`PhysicsManager.update` clears `k_o_d_players_this_frame`, then runs each
character's physics; every movement sub-step ends in
`handle_stage_collision`, which calls `check_blast_zone_ko`.  The position
integration itself is abstracted here as the list of positions at which
the KO check fires during the tick.
-/

/-- Blast-zone bounds of a stage (`get_stage_blast_zones` result). -/
structure BlastZones where
  left : ℚ
  right : ℚ
  top : ℚ
  bottom : ℚ
deriving DecidableEq

/-- One entry of the KO map. -/
structure KOInfo where
  direction : String
  position : ℚ × ℚ
deriving DecidableEq

/-- `k_o_d_players_this_frame`: an insertion-ordered map keyed by
`player_id`. -/
abbrev KOMap : Type := List (ℕ × KOInfo)

def koLookup (i : ℕ) : KOMap → Option KOInfo
  | [] => none
  | (j, info) :: rest => if j = i then some info else koLookup i rest

def koContains (i : ℕ) (m : KOMap) : Bool := (koLookup i m).isSome

def koCount (i : ℕ) (m : KOMap) : ℕ := m.countP (fun e => e.1 = i)

/-- The bound cascade of `check_blast_zone_ko` (lines 496-510): left,
right, top, bottom, first violation wins. -/
def firstViolated (z : BlastZones) (p : ℚ × ℚ) : Option String :=
  if p.1 < z.left then some ("left")
  else if p.1 > z.right then some ("right")
  else if p.2 < z.top then some ("top")
  else if p.2 > z.bottom then some ("bottom")
  else none

/-- `PhysicsManager.check_blast_zone_ko` (lines 479-520): record the KO
once per player per tick. -/
def checkBlastZoneKo (z : BlastZones) (pid : ℕ) (p : ℚ × ℚ) (m : KOMap) : KOMap :=
  match firstViolated z p with
  | none => m
  | some dir => if koContains pid m then m else m ++ [(pid, ⟨dir, p⟩)]

/-- The KO checks a single character generates during one tick, one per
movement sub-step position. -/
def runSubsteps (z : BlastZones) (pid : ℕ) (ps : List (ℚ × ℚ)) (m : KOMap) : KOMap :=
  ps.foldl (fun m p => checkBlastZoneKo z pid p m) m

/-- The KO bookkeeping of `PhysicsManager.update` (lines 202-218): reset
the map, then process every character in order. -/
def physicsTickKo (z : BlastZones) (traces : List (ℕ × List (ℚ × ℚ))) : KOMap :=
  traces.foldl (fun m t => runSubsteps z t.1 t.2 m) []

/-- The first KO event `check_blast_zone_ko` would record along a
position trace. -/
def firstKo (z : BlastZones) : List (ℚ × ℚ) → Option KOInfo
  | [] => none
  | p :: ps =>
    match firstViolated z p with
    | some d => some ⟨d, p⟩
    | none => firstKo z ps

/-!
## Combat collisions: the multi-hit path (physics_manager.py, lines 687-741)

`check_combat_collisions` is modelled for one attacker facing one
defender, the shape of every 1v1 tick.  Rectangles are kept in `ℚ`;
`pygame.Rect` truncates coordinates to integers and `width // 2` is
integer division, both of which agree with the rational values on the
integer-coordinate geometry used below.
-/

/-- An axis-aligned rectangle `(x, y, w, h)`. -/
structure QRect where
  x : ℚ
  y : ℚ
  w : ℚ
  h : ℚ
deriving DecidableEq

/-- `pygame.Rect.colliderect`: strict overlap. -/
def rectsOverlap (a b : QRect) : Bool :=
  decide (a.x < b.x + b.w ∧ b.x < a.x + a.w ∧ a.y < b.y + b.h ∧ b.y < a.y + a.h)

/-- `Character.get_collision_rect` (base_character.py, lines 717-726). -/
def collisionRect (pos : ℚ × ℚ) (w h : ℚ) : QRect :=
  ⟨pos.1 - w / 2, pos.2 - h, w, h⟩

/-- The rectangle built for a hitbox inside `check_combat_collisions`
(lines 713-718). -/
def hitboxRect (hb : HB) : QRect :=
  ⟨hb.x - hb.width / 2, hb.y - hb.height / 2, hb.width, hb.height⟩

/-- The per-hitbox loop of `check_combat_collisions` for a non-projectile
hitbox list against a single defender rectangle: decrement
`frames_remaining` and drop expired hitboxes, then on overlap either
throttle by `hit_interval` (multi-hit, hitbox kept) or hit once and drop
the hitbox.  Returns the surviving hitboxes and the number of
`apply_hit` calls. -/
def combatProcess (frames : ℤ) (defRect : QRect) : List HB → List HB × ℕ
  | [] => ([], 0)
  | hb :: rest =>
    let hb := { hb with frames_remaining := hb.frames_remaining - 1 }
    if hb.frames_remaining ≤ 0 then
      combatProcess frames defRect rest
    else if rectsOverlap (hitboxRect hb) defRect then
      if hb.is_multihit then
        if frames - hb.last_hit_frame ≥ hb.hit_interval then
          let r := combatProcess frames defRect rest
          ({ hb with last_hit_frame := frames } :: r.1, r.2 + 1)
        else
          let r := combatProcess frames defRect rest
          (hb :: r.1, r.2)
      else
        let r := combatProcess frames defRect rest
        (r.1, r.2 + 1)
    else
      let r := combatProcess frames defRect rest
      (hb :: r.1, r.2)

/-!
## Speedster (speedster.py)
-/

/-- Speedster fields on top of the base character state. -/
structure SpdChar extends CharState where
  side_attack_cooldown : ℤ
  side_special_cooldown : ℤ
  up_special_cooldown : ℤ
  is_flying_up : Bool
  flight_timer : ℤ
deriving DecidableEq

/-- Speedster `__init__`: `flight_max_duration = 120`. -/
def flightMaxDuration : ℤ := 120

/-- Speedster `__init__`: `side_special_cooldown_duration = 300`. -/
def sideSpecialCooldownDuration : ℤ := 300

/-- Speedster `__init__`: `up_special_cooldown_duration = 600`. -/
def spdUpSpecialCooldownDuration : ℤ := 600

/-- `change_state` lifted to the Speedster record. -/
def changeStateSpd (ns : CState) (s : SpdChar) : SpdChar :=
  { s with toCharState := changeState ns s.toCharState }

def lightningJab : Attack :=
  { atype := "lightning_jab", startup_frames := 3, active_frames := 2,
    recovery_frames := 0, damage := 12, knockback := 4, arange := 50 }

def dashAttack : Attack :=
  { atype := "dash_attack", startup_frames := 1, active_frames := 8,
    recovery_frames := 1, damage := 15, knockback := 6, arange := 65,
    has_movement := true }

def lightningDash : Attack :=
  { atype := "lightning_dash", startup_frames := 5, active_frames := 15,
    recovery_frames := 20, damage := 4, knockback := 5, arange := 80,
    is_multihit := true, hit_interval := 5, has_movement := true }

def whirlwindFlight : Attack :=
  { atype := "whirlwind_flight", startup_frames := 5,
    active_frames := flightMaxDuration.toNat, recovery_frames := 5,
    damage := 2, knockback := 3, arange := 60,
    is_multihit := true, hit_interval := 10, knockback_angle := some (-90) }

def speedBoost : Attack :=
  { atype := "speed_boost", startup_frames := 8, active_frames := 6,
    recovery_frames := 6, damage := 0, knockback := 0,
    is_buff := true, buff_duration := 180 }

/-- `Speedster.perform_attack` (speedster.py, lines 178-292).  The three
cooldown rejections are Python `return` statements executed *after* the
unconditional `is_attacking/attack_state_frames/can_act` mutations, so
they also skip the trailing `attack_hitbox_created` reset; they are
hoisted here to keep the embedding a single expression.  The side
attack's momentum and cooldown assignments are commented out in the
source (marked `bug` there), so the `side` arm sets neither. -/
def speedsterPerformAttack (dir : String) (s : SpdChar) : SpdChar :=
  if ¬s.can_act ∨ s.is_attacking then s
  else
    let s := { s with is_attacking := true, attack_state_frames := 0, can_act := false }
    if dir = "side" ∧ s.side_attack_cooldown > 0 then s
    else if dir = "side_special" ∧ s.side_special_cooldown > 0 then s
    else if dir = "up" ∧ s.up_special_cooldown > 0 then s
    else
      let s :=
        if dir = "neutral" then
          { changeStateSpd CState.lightAttack s with current_attack := some lightningJab }
        else if dir = "side" then
          { changeStateSpd CState.heavyAttack s with current_attack := some dashAttack }
        else if dir = "side_special" then
          let s := { changeStateSpd CState.sideSpecial s with
                       current_attack := some lightningDash }
          let momentum : ℚ := if s.facing_right then 18 else -18
          { s with velocity := (momentum, s.velocity.2),
                   side_special_cooldown := sideSpecialCooldownDuration }
        else if dir = "up" then
          let s := changeStateSpd CState.upSpecial s
          { s with is_flying_up := true, flight_timer := flightMaxDuration,
                   up_special_cooldown := spdUpSpecialCooldownDuration,
                   is_attacking := true, can_act := false, attack_state_frames := 0,
                   current_attack := some whirlwindFlight, attack_hitbox_created := false }
        else if dir = "down" then
          { changeStateSpd CState.downSpecial s with current_attack := some speedBoost }
        else s
      { s with attack_hitbox_created := false }

/-- `Speedster.get_speedster_knockback_angle` (lines 355-366). -/
def speedsterKnockbackAngle (a : Attack) : ℚ :=
  if a.atype = "tornado_spin" then -45
  else if a.atype = "dash_attack" then -5
  else 0

/-- `Speedster.create_attack_hitbox` (lines 294-338) for a non-buff
attack: width 50, height 45, multi-hit bookkeeping seeded with
`last_hit_frame = 0`. -/
def speedsterCreateHitbox (pos : ℚ × ℚ) (facing : Bool) (a : Attack) : HB :=
  let offx : ℚ := if facing then a.arange else -a.arange
  let offy : ℚ := -35
  let off : ℚ × ℚ := if a.atype = "tornado_spin" then (0, -50) else (offx, offy)
  { x := pos.1 + off.1, y := pos.2 + off.2, width := 50, height := 45,
    damage := a.damage, knockback := a.knockback,
    knockback_angle := speedsterKnockbackAngle a,
    frames_remaining := (a.active_frames : ℤ),
    is_multihit := a.is_multihit, hit_interval := a.hit_interval,
    last_hit_frame := 0 }

/-- `Speedster.update_multihit_attacks` (lines 411-425): every
`hit_interval` frames it re-seeds `last_hit_frame` to the current attack
frame, without applying any damage. -/
def updateMultihitAttacks (frames : ℤ) (hbs : List HB) : List HB :=
  hbs.map fun hb =>
    if hb.is_multihit ∧ frames - hb.last_hit_frame ≥ hb.hit_interval then
      { hb with last_hit_frame := frames }
    else hb

/-!
## Heavy (heavy.py)
-/

/-- Heavy fields on top of the base character state. -/
structure HeavyChar extends CharState where
  has_super_armor : Bool
  armor_timer : ℚ
  power_stance_active : Bool
  power_stance_timer : ℚ
  is_ground_pounding : Bool
  ground_pound_attack_data : Option Attack
  up_special_cooldown : ℤ
deriving DecidableEq

/-- Heavy `__init__`: `jump_strength = 16.0`. -/
def heavyJumpStrength : ℚ := 16

/-- Heavy `__init__`: `up_special_cooldown_duration = 600`. -/
def heavyUpSpecialCooldownDuration : ℤ := 600

def changeStateHeavy (ns : CState) (h : HeavyChar) : HeavyChar :=
  { h with toCharState := changeState ns h.toCharState }

/-- `Heavy.activate_super_armor` (lines 175-181). -/
def activateSuperArmor (duration : ℚ) (h : HeavyChar) : HeavyChar :=
  { h with has_super_armor := true, armor_timer := duration }

def heavyPunch : Attack :=
  { atype := "heavy_punch", startup_frames := 8, active_frames := 6,
    recovery_frames := 18, damage := 18, knockback := 9, arange := 75,
    has_armor := true, armor_frames := 10 }

def hammerSlam : Attack :=
  { atype := "hammer_slam", startup_frames := 12, active_frames := 25,
    recovery_frames := 30, damage := 18, knockback := 8, arange := 0,
    has_armor := true, armor_frames := 40, is_body_slam := true }

def groundPound : Attack :=
  { atype := "ground_pound", startup_frames := 5, active_frames := 30,
    recovery_frames := 30, damage := 26, knockback := 12, arange := 120,
    has_shockwave := true }

def armorStance : Attack :=
  { atype := "armor_stance", startup_frames := 10, active_frames := 8,
    recovery_frames := 12, damage := 0, knockback := 0, arange := 0,
    is_stance := true, stance_duration := 240 }

/-- The armor application and flag reset at the tail of
`Heavy.perform_attack` (lines 169-173). -/
def heavyFinishAttack (a : Attack) (h : HeavyChar) : HeavyChar :=
  let h := if a.has_armor then activateSuperArmor a.armor_frames h else h
  { h with attack_hitbox_created := false }

/-- `Heavy.perform_attack` (heavy.py, lines 89-173).  The up-special
cooldown rejection is a Python `return` placed after the unconditional
flag mutations.  With an unrecognised direction the tail reads
`self.current_attack.get(...)`, which raises `AttributeError` when
`current_attack` is `None`; that crash path is `none` here. -/
def heavyPerformAttack (dir : String) (h : HeavyChar) : Option HeavyChar :=
  if ¬h.can_act ∨ h.is_attacking then some h
  else
    let h := { h with is_attacking := true, attack_state_frames := 0, can_act := false }
    if dir = "neutral" then
      some (heavyFinishAttack heavyPunch
        { changeStateHeavy CState.lightAttack h with current_attack := some heavyPunch })
    else if dir = "side" then
      some (heavyFinishAttack hammerSlam
        { changeStateHeavy CState.heavyAttack h with current_attack := some hammerSlam })
    else if dir = "up" then
      if h.up_special_cooldown > 0 then some h
      else
        let h := { h with velocity := (h.velocity.1, -(heavyJumpStrength * 1.2)),
                          on_ground := false, is_ground_pounding := true }
        let h := { changeStateHeavy CState.upSpecial h with
                     current_attack := some groundPound,
                     ground_pound_attack_data := some groundPound,
                     up_special_cooldown := heavyUpSpecialCooldownDuration }
        some (heavyFinishAttack groundPound h)
    else if dir = "down" then
      some (heavyFinishAttack armorStance
        { changeStateHeavy CState.downSpecial h with current_attack := some armorStance })
    else
      match h.current_attack with
      | none => none
      | some a => some (heavyFinishAttack a h)

/-!
## The multi-hit dash scenario

One game tick runs the attacking Speedster's character update first
(`GameplayState.update` calls `character.update` before
`physics_manager.update`), then the combat pass.  The character phase is
the attack-relevant slice of `Speedster.update`: the parent's
attack-frame advance and `update_attack_timing` (with the Speedster
hitbox factory), followed by `update_multihit_attacks`.  The attacker
stands still and the defender never moves, so positions are fixed
parameters.
-/

/-- The attacker-side state the scenario needs. -/
structure SpdScn where
  attack_state_frames : ℤ
  is_attacking : Bool
  attack_hitbox_created : Bool
  hitboxes : List HB
deriving DecidableEq

/-- `update_attack_timing` for a Speedster attack `a` on the scenario
state (hitbox creation window and `end_attack` essentials). -/
def scnAttackTiming (pos : ℚ × ℚ) (facing : Bool) (a : Attack) (s : SpdScn) : SpdScn :=
  if s.attack_state_frames < (a.startup_frames : ℤ) then s
  else if s.attack_state_frames < (a.startup_frames : ℤ) + (a.active_frames : ℤ) then
    if ¬s.attack_hitbox_created then
      { s with hitboxes := s.hitboxes ++ [speedsterCreateHitbox pos facing a],
               attack_hitbox_created := true }
    else s
  else if s.attack_state_frames ≥
      (a.startup_frames : ℤ) + (a.active_frames : ℤ) + (a.recovery_frames : ℤ) then
    { s with is_attacking := false, attack_hitbox_created := false }
  else s

/-- The parent-update part of the character phase: attack-frame advance
and attack timing while attacking (`Character.update`, lines 248-251). -/
def scnCharStep (pos : ℚ × ℚ) (facing : Bool) (a : Attack) (s : SpdScn) : SpdScn :=
  if s.is_attacking then
    scnAttackTiming pos facing a { s with attack_state_frames := s.attack_state_frames + 1 }
  else s

/-- The character phase of one scenario tick: the parent update, then
`update_multihit_attacks` (which `Speedster.update` runs
unconditionally, after the parent update). -/
def scnCharTick (pos : ℚ × ℚ) (facing : Bool) (a : Attack) (s : SpdScn) : SpdScn :=
  let s := scnCharStep pos facing a s
  { s with hitboxes := updateMultihitAttacks s.attack_state_frames s.hitboxes }

/-- One full scenario tick: character phase then combat pass,
accumulating the number of applied hits. -/
def scnTick (pos : ℚ × ℚ) (facing : Bool) (defRect : QRect) (a : Attack)
    (st : SpdScn × ℕ) : SpdScn × ℕ :=
  let s := scnCharTick pos facing a st.1
  let r := combatProcess s.attack_state_frames defRect s.hitboxes
  ({ s with hitboxes := r.1 }, st.2 + r.2)

/-- Run the scenario from the state `perform_attack` leaves behind
(`attack_state_frames = 0`, attacking, no hitbox yet). -/
def scnRun (pos : ℚ × ℚ) (facing : Bool) (defRect : QRect) (a : Attack) : ℕ → SpdScn × ℕ
  | 0 => (⟨0, true, false, []⟩, 0)
  | n + 1 => scnTick pos facing defRect a (scnRun pos facing defRect a n)

/-- A stationary defender right next to the attacker: base character
dimensions 60 × 80 at `(480, 500)`. -/
def scnDefenderRect : QRect := collisionRect (480, 500) 60 80

/-- The attacker's fixed position in the scenario. -/
def scnAttackerPos : ℚ × ℚ := (400, 500)

/-!
## Concrete states used by the closed theorems
-/

/-- A freshly spawned base character standing on the ground, as
`Character.__init__` leaves it (player 1, grounded, idle, no damage). -/
def baseChar : CharState :=
  { position := (400, 500), velocity := (0, 0), facing_right := true,
    on_ground := true, can_jump := true, coyote_time := 0,
    current_state := CState.idle, previous_state := CState.idle, state_timer := 0,
    can_act := true, is_attacking := false, attack_state_frames := 0,
    hit_stun_timer := 0, invincibility_timer := 0, active_hitboxes := [],
    current_attack := none, attack_hitbox_created := false,
    hit_flash_timer := 0, screen_shake_intensity := 0, respawn_invincibility := 0,
    player_id := 1, lives := 3, damage_percent := 0 }

/-- A character one tick into a full jump, ascending at `-8`. -/
def jumper : CharState :=
  { baseChar with on_ground := false, can_jump := false,
                  current_state := CState.jumping, velocity := (0, -8) }

/-- The all-buttons-released input snapshot. -/
def noInput : InputSnapshot :=
  ⟨⟨false, false, false, false, false, false⟩,
   ⟨false, false, false, false, false, false⟩⟩

/-- A Speedster at rest with every archetype cooldown still running. -/
def spdOnCooldown : SpdChar :=
  { toCharState := baseChar, side_attack_cooldown := 120,
    side_special_cooldown := 300, up_special_cooldown := 600,
    is_flying_up := false, flight_timer := 0 }

/-- A Heavy at rest with the ground-pound cooldown still running and no
armor active. -/
def heavyOnCooldown : HeavyChar :=
  { toCharState := baseChar, has_super_armor := false, armor_timer := 0,
    power_stance_active := false, power_stance_timer := 0,
    is_ground_pounding := false, ground_pound_attack_data := none,
    up_special_cooldown := 600 }

/-- What a rejected cooldown call actually leaves behind: the pre-branch
flag mutations with nothing else. -/
def heavyAfterRejection : HeavyChar :=
  { heavyOnCooldown with is_attacking := true, can_act := false,
                         attack_state_frames := 0 }

/-!
## Claim theorems
-/

/-- The outcome `check_platform_landing` produces for a falling character
inside the tolerance band: snapped to the platform top, vertical velocity
zeroed, grounded, horizontal components untouched. -/
def landingOutcome (c : PhysChar) (pl : Platform) : Prop :=
  (checkPlatformLanding c pl).1 = true ∧
  (checkPlatformLanding c pl).2.position.1 = c.position.1 ∧
  (checkPlatformLanding c pl).2.position.2 = pl.y ∧
  (checkPlatformLanding c pl).2.velocity.1 = c.velocity.1 ∧
  (checkPlatformLanding c pl).2.velocity.2 = 0 ∧
  (checkPlatformLanding c pl).2.on_ground = true

/-- C4: a falling character (`velocity.y > 0`) whose bottom edge lies in
`[platform.y - 5, platform.y + 10]` while horizontally overlapping the
platform (with the 5-pixel insets) is snapped to `position.y =
platform.y` with `velocity.y = 0` and `on_ground = true`. -/
theorem check_platform_landing_snaps_falling_character
    (c : PhysChar) (pl : Platform) (hfall : c.velocity.2 > 0)
    (hb1 : pl.y - 5 ≤ c.position.2) (hb2 : c.position.2 ≤ pl.y + 10)
    (hh1 : c.position.1 + c.pwidth / 2 > pl.x + 5)
    (hh2 : c.position.1 - c.pwidth / 2 < pl.x + pl.width - 5) :
    landingOutcome c pl := by
  unfold landingOutcome checkPlatformLanding
  simp only []
  rw [if_pos ⟨⟨hb1, hb2⟩, hh1, hh2⟩, if_pos hfall]
  exact ⟨rfl, rfl, rfl, rfl, rfl, rfl⟩

/-- Witness for C4: a concrete falling character over a concrete
platform. -/
theorem check_platform_landing_snaps_falling_character_witness :
    landingOutcome ⟨(300, 503), (2, 6), 60, false⟩ ⟨240, 500, 800, 40⟩ :=
  check_platform_landing_snaps_falling_character
    ⟨(300, 503), (2, 6), 60, false⟩ ⟨240, 500, 800, 40⟩
    (by norm_num) (by norm_num) (by norm_num) (by norm_num) (by norm_num)

/-- The outcome `check_platform_landing` produces for a non-falling
character inside the band: grounded and reported on the platform, but
position and velocity untouched. -/
def standOutcome (c : PhysChar) (pl : Platform) : Prop :=
  (checkPlatformLanding c pl).1 = true ∧
  (checkPlatformLanding c pl).2.position = c.position ∧
  (checkPlatformLanding c pl).2.velocity = c.velocity ∧
  (checkPlatformLanding c pl).2.on_ground = true

/-- C9: with the same band and overlap but `velocity.y ≤ 0` (rising or
resting), `check_platform_landing` still returns `true` and sets
`on_ground`, leaving `position.y` and `velocity.y` unchanged. -/
theorem check_platform_landing_grounds_rising_character
    (c : PhysChar) (pl : Platform) (hrise : c.velocity.2 ≤ 0)
    (hb1 : pl.y - 5 ≤ c.position.2) (hb2 : c.position.2 ≤ pl.y + 10)
    (hh1 : c.position.1 + c.pwidth / 2 > pl.x + 5)
    (hh2 : c.position.1 - c.pwidth / 2 < pl.x + pl.width - 5) :
    standOutcome c pl := by
  unfold standOutcome checkPlatformLanding
  simp only []
  rw [if_pos ⟨⟨hb1, hb2⟩, hh1, hh2⟩, if_neg (by exact absurd · (not_lt.mpr hrise))]
  exact ⟨rfl, rfl, rfl, rfl⟩

/-- Witness for C9: a rising character inside the band keeps its upward
velocity but is grounded. -/
theorem check_platform_landing_grounds_rising_character_witness :
    standOutcome ⟨(300, 498), (0, -3), 60, false⟩ ⟨240, 500, 800, 40⟩ :=
  check_platform_landing_grounds_rising_character
    ⟨(300, 498), (0, -3), 60, false⟩ ⟨240, 500, 800, 40⟩
    (by norm_num) (by norm_num) (by norm_num) (by norm_num) (by norm_num)

/-- After `update_multihit_attacks` runs at frame `f`, no multi-hit
hitbox with a positive interval can satisfy the combat pass's
`f - last_hit_frame ≥ hit_interval` test: the reset branch just set
`last_hit_frame := f`, and the other branch had the test false
already. -/
lemma updateMultihit_throttles {f : ℤ} {hbs : List HB} {hb : HB}
    (hmem : hb ∈ updateMultihitAttacks f hbs) (hm : hb.is_multihit = true)
    (hpos : 0 < hb.hit_interval) : f - hb.last_hit_frame < hb.hit_interval := by
  unfold updateMultihitAttacks at hmem
  rw [List.mem_map] at hmem
  obtain ⟨hb0, _, rfl⟩ := hmem
  by_cases hc : hb0.is_multihit = true ∧ f - hb0.last_hit_frame ≥ hb0.hit_interval
  · rw [if_pos hc]
    rw [if_pos hc] at hpos
    simpa using hpos
  · rw [if_neg hc]
    rw [if_neg hc] at hm
    exact not_le.mp fun hge => hc ⟨hm, hge⟩

/-- Every hitbox in the combat pass's survivor list comes from an input
hitbox with the same multi-hit flags. -/
lemma combatProcess_mem_flags {f : ℤ} {defR : QRect} {hbs : List HB} {hb : HB}
    (h : hb ∈ (combatProcess f defR hbs).1) :
    ∃ hb0 ∈ hbs, hb.is_multihit = hb0.is_multihit ∧ hb.hit_interval = hb0.hit_interval := by
  induction hbs with
  | nil => simp [combatProcess] at h
  | cons hd tl ih =>
    unfold combatProcess at h
    simp only [] at h
    split_ifs at h with h1 h2 h3 h4
    · obtain ⟨hb0, hm, he⟩ := ih h
      exact ⟨hb0, List.mem_cons_of_mem _ hm, he⟩
    · rcases List.mem_cons.mp h with he | hmem
      · exact ⟨hd, List.mem_cons_self _ _, by subst he; exact ⟨rfl, rfl⟩⟩
      · obtain ⟨hb0, hm, he⟩ := ih hmem
        exact ⟨hb0, List.mem_cons_of_mem _ hm, he⟩
    · rcases List.mem_cons.mp h with he | hmem
      · exact ⟨hd, List.mem_cons_self _ _, by subst he; exact ⟨rfl, rfl⟩⟩
      · obtain ⟨hb0, hm, he⟩ := ih hmem
        exact ⟨hb0, List.mem_cons_of_mem _ hm, he⟩
    · obtain ⟨hb0, hm, he⟩ := ih h
      exact ⟨hb0, List.mem_cons_of_mem _ hm, he⟩
    · rcases List.mem_cons.mp h with he | hmem
      · exact ⟨hd, List.mem_cons_self _ _, by subst he; exact ⟨rfl, rfl⟩⟩
      · obtain ⟨hb0, hm, he⟩ := ih hmem
        exact ⟨hb0, List.mem_cons_of_mem _ hm, he⟩

/-- Same flag preservation for `update_multihit_attacks`. -/
lemma updateMultihit_mem_flags {f : ℤ} {hbs : List HB} {hb : HB}
    (h : hb ∈ updateMultihitAttacks f hbs) :
    ∃ hb0 ∈ hbs, hb.is_multihit = hb0.is_multihit ∧ hb.hit_interval = hb0.hit_interval := by
  unfold updateMultihitAttacks at h
  rw [List.mem_map] at h
  obtain ⟨hb0, hm, rfl⟩ := h
  by_cases hc : hb0.is_multihit = true ∧ f - hb0.last_hit_frame ≥ hb0.hit_interval
  · exact ⟨hb0, hm, by rw [if_pos hc]; exact ⟨rfl, rfl⟩⟩
  · exact ⟨hb0, hm, by rw [if_neg hc]; exact ⟨rfl, rfl⟩⟩

/-- If every hitbox in the list is multi-hit and already inside its
interval window at frame `f`, the combat pass applies no hit at all. -/
lemma combatProcess_no_hits (f : ℤ) (defR : QRect) (hbs : List HB)
    (h : ∀ hb ∈ hbs, hb.is_multihit = true ∧ f - hb.last_hit_frame < hb.hit_interval) :
    (combatProcess f defR hbs).2 = 0 := by
  induction hbs with
  | nil => simp [combatProcess]
  | cons hd tl ih =>
    have hhd := h hd (List.mem_cons_self _ _)
    have htl : ∀ hb ∈ tl, hb.is_multihit = true ∧ f - hb.last_hit_frame < hb.hit_interval :=
      fun hb hm => h hb (List.mem_cons_of_mem _ hm)
    unfold combatProcess
    simp only []
    split_ifs with h1 h2 h3 h4
    · exact ih htl
    · exact absurd h4 (not_le.mpr hhd.2)
    · simpa using ih htl
    · exact absurd hhd.1 (by simpa using h3)
    · simpa using ih htl

/-- The attack-timing phase appends at most the freshly created hitbox. -/
lemma scnAttackTiming_mem {pos : ℚ × ℚ} {facing : Bool} {a : Attack} {s : SpdScn} {hb : HB}
    (h : hb ∈ (scnAttackTiming pos facing a s).hitboxes) :
    hb ∈ s.hitboxes ∨ hb = speedsterCreateHitbox pos facing a := by
  unfold scnAttackTiming at h
  split_ifs at h <;> simp_all

/-- The parent-update phase appends at most the freshly created hitbox. -/
lemma scnCharStep_mem {pos : ℚ × ℚ} {facing : Bool} {a : Attack} {s : SpdScn} {hb : HB}
    (h : hb ∈ (scnCharStep pos facing a s).hitboxes) :
    hb ∈ s.hitboxes ∨ hb = speedsterCreateHitbox pos facing a := by
  unfold scnCharStep at h
  split_ifs at h
  · rcases scnAttackTiming_mem h with h' | h'
    · exact Or.inl h'
    · exact Or.inr h'
  · exact Or.inl h

/-- Invariant: every hitbox the dash scenario ever owns is multi-hit with
interval 5 (the `lightning_dash` flags). -/
lemma scnRun_flags (pos : ℚ × ℚ) (facing : Bool) (defR : QRect) (n : ℕ) :
    ∀ hb ∈ (scnRun pos facing defR lightningDash n).1.hitboxes,
      hb.is_multihit = true ∧ hb.hit_interval = 5 := by
  induction n with
  | zero => intro hb h; simp [scnRun] at h
  | succ n ih =>
    intro hb h
    rw [show scnRun pos facing defR lightningDash (n + 1) =
          scnTick pos facing defR lightningDash (scnRun pos facing defR lightningDash n)
        from rfl] at h
    unfold scnTick at h
    simp only [] at h
    obtain ⟨hb0, hm0, hf1, hf2⟩ := combatProcess_mem_flags h
    have hm0' : hb0 ∈ updateMultihitAttacks
        (scnCharStep pos facing lightningDash (scnRun pos facing defR lightningDash n).1).attack_state_frames
        (scnCharStep pos facing lightningDash (scnRun pos facing defR lightningDash n).1).hitboxes := by
      simpa [scnCharTick] using hm0
    obtain ⟨hb1, hm1, hg1, hg2⟩ := updateMultihit_mem_flags hm0'
    rcases scnCharStep_mem hm1 with hmem | hnew
    · have := ih hb1 hmem
      exact ⟨by rw [hf1, hg1, this.1], by rw [hf2, hg2, this.2]⟩
    · subst hnew
      exact ⟨by rw [hf1, hg1]; rfl, by rw [hf2, hg2]; rfl⟩

/-- The accumulated hit count of the dash scenario is identically zero:
by the time `check_combat_collisions` runs, `update_multihit_attacks` has
already pushed `last_hit_frame` inside the interval window. -/
lemma scnRun_hits_zero (pos : ℚ × ℚ) (facing : Bool) (defR : QRect) :
    ∀ n, (scnRun pos facing defR lightningDash n).2 = 0 := by
  intro n
  induction n with
  | zero => rfl
  | succ n ih =>
    rw [show scnRun pos facing defR lightningDash (n + 1) =
          scnTick pos facing defR lightningDash (scnRun pos facing defR lightningDash n)
        from rfl]
    unfold scnTick
    simp only []
    rw [ih]
    have hz : (combatProcess
        (scnCharTick pos facing lightningDash (scnRun pos facing defR lightningDash n).1).attack_state_frames
        defR
        (scnCharTick pos facing lightningDash (scnRun pos facing defR lightningDash n).1).hitboxes).2 = 0 := by
      apply combatProcess_no_hits
      intro hb hmem
      have hframes : (scnCharTick pos facing lightningDash
            (scnRun pos facing defR lightningDash n).1).attack_state_frames =
          (scnCharStep pos facing lightningDash
            (scnRun pos facing defR lightningDash n).1).attack_state_frames := by
        simp [scnCharTick]
      have hmem' : hb ∈ updateMultihitAttacks
          (scnCharStep pos facing lightningDash (scnRun pos facing defR lightningDash n).1).attack_state_frames
          (scnCharStep pos facing lightningDash (scnRun pos facing defR lightningDash n).1).hitboxes := by
        simpa [scnCharTick] using hmem
      obtain ⟨hb1, hm1, hg1, hg2⟩ := updateMultihit_mem_flags hmem'
      have hflags : hb.is_multihit = true ∧ hb.hit_interval = 5 := by
        rcases scnCharStep_mem hm1 with hmem2 | hnew
        · have := scnRun_flags pos facing defR n hb1 hmem2
          exact ⟨by rw [hg1, this.1], by rw [hg2, this.2]⟩
        · subst hnew
          exact ⟨by rw [hg1]; rfl, by rw [hg2]; rfl⟩
      refine ⟨hflags.1, ?_⟩
      rw [hframes]
      exact updateMultihit_throttles hmem' hflags.1 (by rw [hflags.2]; norm_num)
    rw [hz]

/-- C6: the multi-hit dash scenario fails.  For every attacker position,
facing and defender rectangle — in particular the concrete overlapping
geometry of the second conjunct — a `lightning_dash`
(`is_multihit = true`, `hit_interval = 5`, 15 active frames) applies
zero hits over any number of ticks, not the three the claim requires:
`Speedster.update_multihit_attacks` re-seeds `last_hit_frame` every
interval during the character update, before
`check_combat_collisions` tests it. -/
theorem multihit_dash_applies_zero_hits :
    (∀ (pos : ℚ × ℚ) (facing : Bool) (defRect : QRect) (n : ℕ),
        (scnRun pos facing defRect lightningDash n).2 = 0) ∧
    rectsOverlap
      (hitboxRect (speedsterCreateHitbox scnAttackerPos true lightningDash))
      scnDefenderRect = true := by
  constructor
  · exact fun pos facing defRect n => scnRun_hits_zero pos facing defRect n
  · rw [rectsOverlap, decide_eq_true_eq]
    norm_num [hitboxRect, speedsterCreateHitbox, scnAttackerPos, scnDefenderRect,
      collisionRect, lightningDash]
    rw [if_neg (by decide : ¬("lightning_dash" = "tornado_spin"))]
    norm_num

/-! ### Blast-zone KO lemmas -/

lemma koLookup_cons (j : ℕ) (info : KOInfo) (tl : KOMap) (i : ℕ) :
    koLookup i ((j, info) :: tl) = if j = i then some info else koLookup i tl := rfl

lemma koCount_cons (j : ℕ) (info : KOInfo) (tl : KOMap) (i : ℕ) :
    koCount i ((j, info) :: tl) = koCount i tl + (if j = i then 1 else 0) := by
  by_cases he : j = i <;> simp [koCount, List.countP_cons, he]

lemma koLookup_none_count_zero {pid : ℕ} :
    ∀ {m : KOMap}, koLookup pid m = none → koCount pid m = 0 := by
  intro m
  induction m with
  | nil => intro _; rfl
  | cons hd tl ih =>
    obtain ⟨j, info⟩ := hd
    intro h
    rw [koLookup_cons] at h
    by_cases he : j = pid
    · rw [if_pos he] at h; exact absurd h (by simp)
    · rw [if_neg he] at h
      rw [koCount_cons, if_neg he, ih h]

lemma koLookup_append_self {pid : ℕ} (info : KOInfo) :
    ∀ {m : KOMap}, koLookup pid m = none →
      koLookup pid (m ++ [(pid, info)]) = some info := by
  intro m
  induction m with
  | nil => intro _; simp [koLookup]
  | cons hd tl ih =>
    obtain ⟨j, jinfo⟩ := hd
    intro h
    rw [koLookup_cons] at h
    rw [List.cons_append, koLookup_cons]
    by_cases he : j = pid
    · rw [if_pos he] at h; exact absurd h (by simp)
    · rw [if_neg he] at h
      rw [if_neg he]
      exact ih h

lemma koLookup_append_other {pid j : ℕ} (h : j ≠ pid) (info : KOInfo) :
    ∀ (m : KOMap), koLookup j (m ++ [(pid, info)]) = koLookup j m := by
  intro m
  induction m with
  | nil => simp [koLookup, Ne.symm h]
  | cons hd tl ih =>
    obtain ⟨a, b⟩ := hd
    rw [List.cons_append, koLookup_cons, koLookup_cons, ih]

lemma koCount_append_self {pid : ℕ} (info : KOInfo) (m : KOMap) :
    koCount pid (m ++ [(pid, info)]) = koCount pid m + 1 := by
  simp [koCount, List.countP_append]

lemma koCount_append_other {pid j : ℕ} (h : j ≠ pid) (info : KOInfo) (m : KOMap) :
    koCount j (m ++ [(pid, info)]) = koCount j m := by
  simp [koCount, List.countP_append, Ne.symm h]

/-- A KO check for a player already in the map changes nothing. -/
lemma checkBlastZoneKo_of_contains {z : BlastZones} {pid : ℕ} {p : ℚ × ℚ} {m : KOMap}
    (h : koContains pid m = true) : checkBlastZoneKo z pid p m = m := by
  unfold checkBlastZoneKo
  cases firstViolated z p with
  | none => rfl
  | some d => simp [h]

lemma runSubsteps_of_contains {z : BlastZones} {pid : ℕ} {m : KOMap}
    (h : koContains pid m = true) (ps : List (ℚ × ℚ)) :
    runSubsteps z pid ps m = m := by
  induction ps with
  | nil => rfl
  | cons p ps ih =>
    unfold runSubsteps at ih ⊢
    rw [List.foldl_cons, checkBlastZoneKo_of_contains h]
    exact ih

/-- KO checks for one player never touch another player's entries. -/
lemma checkBlastZoneKo_other {z : BlastZones} {pid j : ℕ} {p : ℚ × ℚ} {m : KOMap}
    (h : j ≠ pid) :
    koLookup j (checkBlastZoneKo z pid p m) = koLookup j m ∧
    koCount j (checkBlastZoneKo z pid p m) = koCount j m := by
  unfold checkBlastZoneKo
  cases firstViolated z p with
  | none => exact ⟨rfl, rfl⟩
  | some d =>
    by_cases hc : koContains pid m = true
    · simp [hc]
    · simp only [hc, Bool.false_eq_true, if_false]
      exact ⟨koLookup_append_other h _ m, koCount_append_other h _ m⟩

lemma runSubsteps_other {z : BlastZones} {pid j : ℕ} (h : j ≠ pid)
    (ps : List (ℚ × ℚ)) :
    ∀ m : KOMap,
      koLookup j (runSubsteps z pid ps m) = koLookup j m ∧
      koCount j (runSubsteps z pid ps m) = koCount j m := by
  induction ps with
  | nil => intro m; exact ⟨rfl, rfl⟩
  | cons p ps ih =>
    intro m
    unfold runSubsteps at ih ⊢
    rw [List.foldl_cons]
    refine ⟨?_, ?_⟩
    · rw [(ih _).1, (checkBlastZoneKo_other h).1]
    · rw [(ih _).2, (checkBlastZoneKo_other h).2]

/-- Processing one character's tick records exactly its first violating
sub-step, if any. -/
lemma runSubsteps_records {z : BlastZones} {pid : ℕ} (ps : List (ℚ × ℚ)) :
    ∀ {m : KOMap}, koLookup pid m = none →
      koLookup pid (runSubsteps z pid ps m) = firstKo z ps ∧
      koCount pid (runSubsteps z pid ps m) =
        (firstKo z ps).elim 0 (fun _ => 1) := by
  induction ps with
  | nil =>
    intro m h
    exact ⟨h, koLookup_none_count_zero h⟩
  | cons p ps ih =>
    intro m h
    unfold runSubsteps at ih ⊢
    rw [List.foldl_cons]
    unfold firstKo
    cases hv : firstViolated z p with
    | none =>
      have hstep : checkBlastZoneKo z pid p m = m := by
        unfold checkBlastZoneKo
        rw [hv]
      rw [hstep]
      exact ih h
    | some d =>
      have hnc : ¬(koContains pid m = true) := by
        unfold koContains
        rw [h]
        simp
      have hstep : checkBlastZoneKo z pid p m = m ++ [(pid, ⟨d, p⟩)] := by
        unfold checkBlastZoneKo
        rw [hv]
        exact if_neg hnc
      rw [hstep]
      have hcontains : koContains pid (m ++ [(pid, ⟨d, p⟩)]) = true := by
        unfold koContains
        rw [koLookup_append_self _ h]
        rfl
      rw [show List.foldl (fun m p => checkBlastZoneKo z pid p m)
            (m ++ [(pid, ⟨d, p⟩)]) ps = runSubsteps z pid ps (m ++ [(pid, ⟨d, p⟩)]) from rfl,
          runSubsteps_of_contains hcontains]
      refine ⟨koLookup_append_self _ h, ?_⟩
      rw [koCount_append_self, koLookup_none_count_zero h]
      rfl

/-- Folding the remaining characters (all with a different `player_id`)
leaves a player's entry untouched. -/
lemma koFold_other {z : BlastZones} {pid : ℕ} :
    ∀ (ts : List (ℕ × List (ℚ × ℚ))) (m : KOMap), (∀ t ∈ ts, t.1 ≠ pid) →
      koLookup pid (ts.foldl (fun m t => runSubsteps z t.1 t.2 m) m) = koLookup pid m ∧
      koCount pid (ts.foldl (fun m t => runSubsteps z t.1 t.2 m) m) = koCount pid m := by
  intro ts
  induction ts with
  | nil => intro m _; exact ⟨rfl, rfl⟩
  | cons t ts ih =>
    intro m hne
    rw [List.foldl_cons]
    have hthis := @runSubsteps_other z t.1 pid
      (fun he => hne t (List.mem_cons_self _ _) he.symm) t.2 m
    have hrest := ih (runSubsteps z t.1 t.2 m)
      (fun u hu => hne u (List.mem_cons_of_mem _ hu))
    exact ⟨hrest.1.trans hthis.1, hrest.2.trans hthis.2⟩

/-- The outcome the KO claim asserts: the player appears in the tick's KO
map exactly once, carrying the first violating sub-step position and its
first violated bound in the order left, right, top, bottom. -/
def blastZoneKoOutcome (z : BlastZones) (traces : List (ℕ × List (ℚ × ℚ)))
    (pid : ℕ) (info : KOInfo) : Prop :=
  koLookup pid (physicsTickKo z traces) = some info ∧
  koCount pid (physicsTickKo z traces) = 1

/-- C5: if a character's position violates some blast-zone bound during a
tick (`firstKo` finds a violating sub-step), the returned KO map holds
that `player_id` exactly once, labelled with the first violated bound in
the order left, right, top, bottom, at the position of the first
violating sub-step. -/
theorem blast_zone_ko_once_first_bound (z : BlastZones)
    (traces : List (ℕ × List (ℚ × ℚ))) (pid : ℕ) (ps : List (ℚ × ℚ))
    (info : KOInfo) (hmem : (pid, ps) ∈ traces)
    (hnodup : (traces.map Prod.fst).Nodup) (hfk : firstKo z ps = some info) :
    blastZoneKoOutcome z traces pid info := by
  unfold blastZoneKoOutcome physicsTickKo
  suffices h : ∀ (ts : List (ℕ × List (ℚ × ℚ))) (m : KOMap), (pid, ps) ∈ ts →
      (ts.map Prod.fst).Nodup → koLookup pid m = none →
      koLookup pid (ts.foldl (fun m t => runSubsteps z t.1 t.2 m) m) = some info ∧
      koCount pid (ts.foldl (fun m t => runSubsteps z t.1 t.2 m) m) = 1 by
    exact h traces [] hmem hnodup rfl
  intro ts
  induction ts with
  | nil => intro m hm; exact absurd hm (List.not_mem_nil _)
  | cons t ts ih =>
    intro m hm hnd hnone
    rw [List.foldl_cons]
    rcases List.mem_cons.mp hm with he | hm'
    · subst he
      have hrec := @runSubsteps_records z pid ps m hnone
      rw [hfk] at hrec
      have hne : ∀ u ∈ ts, u.1 ≠ pid := by
        intro u hu hueq
        have hmm : pid ∈ ts.map Prod.fst := by
          rw [← hueq]; exact List.mem_map_of_mem _ hu
        exact (List.nodup_cons.mp (by simpa using hnd)).1 hmm
      have hrest := @koFold_other z pid ts (runSubsteps z pid ps m) hne
      exact ⟨hrest.1.trans hrec.1, hrest.2.trans hrec.2⟩
    · have htne : t.1 ≠ pid := by
        intro he
        have hmm : pid ∈ ts.map Prod.fst := List.mem_map_of_mem _ hm'
        rw [← he] at hmm
        exact (List.nodup_cons.mp (by simpa using hnd)).1 hmm
      have hstep := @runSubsteps_other z t.1 pid (fun he => htne he.symm) t.2 m
      exact ih (runSubsteps z t.1 t.2 m) hm'
        ((List.nodup_cons.mp (by simpa using hnd)).2) (hstep.1.trans hnone)

/-- Witness for C5: one character falls past the right blast zone of the
legacy Battlefield bounds. -/
theorem blast_zone_ko_once_first_bound_witness :
    ((1 : ℕ), [((1500 : ℚ), (300 : ℚ))]) ∈ [((1 : ℕ), [((1500 : ℚ), (300 : ℚ))])] ∧
    blastZoneKoOutcome ⟨-200, 1480, -200, 920⟩ [(1, [(1500, 300)])] 1
      ⟨"right", (1500, 300)⟩ := by
  refine ⟨List.mem_singleton_self _, ?_⟩
  apply blast_zone_ko_once_first_bound _ _ _ [((1500 : ℚ), (300 : ℚ))]
  · exact List.mem_singleton_self _
  · simp
  · unfold firstKo firstViolated
    rw [if_neg (by norm_num), if_pos (by norm_num)]

/-! ### Input/update step lemmas -/

lemma facingStep_eq (i : InputSnapshot) (c : CharState) :
    ∃ b, facingStep i c = { c with facing_right := b } := by
  unfold facingStep
  split_ifs <;> exact ⟨_, rfl⟩

lemma applyAirMovement_eq (h : ℚ) (c : CharState) :
    ∃ vx, applyAirMovement h c = { c with velocity := (vx, c.velocity.2) } := by
  unfold applyAirMovement
  split_ifs <;> exact ⟨_, rfl⟩

lemma moveStep_air_eq (i : InputSnapshot) (c : CharState) (hair : c.on_ground = false) :
    ∃ vx, moveStep i c = { c with velocity := (vx, c.velocity.2) } := by
  unfold moveStep
  rw [if_neg (by simp [hair])]
  exact applyAirMovement_eq _ c

lemma jumpStep_skip (i : InputSnapshot) (c : CharState) (hup : i.cur.up = false) :
    jumpStep i c = c := by
  unfold jumpStep
  rw [if_neg (by simp [hup])]

lemma jumpCutStep_cut (i : InputSnapshot) (c : CharState) (hup : i.cur.up = false)
    (hvy : c.velocity.2 < 0) (hst : c.current_state = CState.jumping) :
    jumpCutStep i c = { c with velocity := (c.velocity.1, c.velocity.2 * 0.5) } := by
  unfold jumpCutStep
  rw [if_pos ⟨by simp [hup], hvy, hst⟩]

lemma crouchStep_skip_air (i : InputSnapshot) (c : CharState) (hair : c.on_ground = false)
    (hst : c.current_state ≠ CState.crouching) : crouchStep i c = c := by
  unfold crouchStep
  rw [if_neg (by simp [hair]), if_neg hst]

lemma attackStep_skip (i : InputSnapshot) (c : CharState)
    (h : ¬(i.cur.attack = true ∧ i.prev.attack = false)) : attackStep i c = c := by
  unfold attackStep
  rw [if_neg (by simpa using h)]

lemma inputPhase_run (i : InputSnapshot) (c : CharState) (h1 : c.can_act = true)
    (h2 : c.hit_stun_timer ≤ 0) : inputPhase i c = handleInput i c := by
  unfold inputPhase
  rw [if_pos ⟨by simp [h1], h2⟩]

lemma inputPhase_skip (i : InputSnapshot) (c : CharState) (h : c.can_act = false) :
    inputPhase i c = c := by
  unfold inputPhase
  rw [if_neg (by simp [h])]

lemma coyoteStep_eq (dt : ℚ) (c : CharState) :
    ∃ co, coyoteStep dt c = { c with coyote_time := co } := by
  unfold coyoteStep
  split_ifs <;> exact ⟨_, rfl⟩

lemma updatePhysics_air_eq (dt : ℚ) (c : CharState) (hair : c.on_ground = false) :
    ∃ co, updatePhysics dt c = { c with coyote_time := co } := by
  unfold updatePhysics
  obtain ⟨co, hco⟩ := coyoteStep_eq dt c
  rw [hco]
  rw [if_neg (by simp [hair])]
  exact ⟨co, rfl⟩

lemma coyoteStep_grounded (dt : ℚ) (c : CharState) (hg : c.on_ground = true) :
    coyoteStep dt c = c := by
  unfold coyoteStep
  rw [if_neg (show ¬(¬c.on_ground = true ∧ c.coyote_time > 0) by simp [hg])]

lemma updatePhysics_grounded_skip (dt : ℚ) (c : CharState) (hg : c.on_ground = true)
    (hst : c.current_state ≠ CState.falling) : updatePhysics dt c = c := by
  unfold updatePhysics
  rw [coyoteStep_grounded dt c hg]
  rw [if_neg (show ¬(c.on_ground = true ∧ c.current_state = CState.falling) by simp [hst])]

lemma updateStateMachine_skip (c : CharState)
    (h1 : c.current_state ≠ CState.landing)
    (h2 : ¬(c.current_state = CState.jumping ∧ c.velocity.2 > 0))
    (h3 : c.current_state ≠ CState.hitStun) : updateStateMachine c = c := by
  unfold updateStateMachine
  simp only []
  rw [if_neg (show ¬(c.current_state = CState.landing ∧ c.state_timer > 0.2) by simp [h1])]
  rw [if_neg h2]
  rw [if_neg (show ¬(c.current_state = CState.hitStun ∧ c.hit_stun_timer ≤ 0) by simp [h3])]

lemma attackFramePhase_skip (c : CharState) (h : c.is_attacking = false) :
    attackFramePhase c = c := by
  unfold attackFramePhase
  rw [if_neg (by simp [h])]

/-- One full `Character.update` tick on an ascending jumper with the jump
button up: the vertical velocity is halved (again), and every condition
that made the cut fire still holds afterwards. -/
lemma charUpdate_jump_cut (dt : ℚ) (i : InputSnapshot) (c : CharState)
    (hdt : 0 ≤ dt) (hca : c.can_act = true) (hhs : c.hit_stun_timer ≤ 0)
    (hair : c.on_ground = false) (hst : c.current_state = CState.jumping)
    (hvy : c.velocity.2 < 0) (hna : c.is_attacking = false)
    (hup : i.cur.up = false)
    (hatk : ¬(i.cur.attack = true ∧ i.prev.attack = false)) :
    (charUpdate dt i c).velocity.2 = c.velocity.2 * 0.5 ∧
    (charUpdate dt i c).current_state = CState.jumping ∧
    (charUpdate dt i c).on_ground = false ∧
    (charUpdate dt i c).can_act = true ∧
    (charUpdate dt i c).is_attacking = false ∧
    (charUpdate dt i c).hit_stun_timer ≤ 0 ∧
    (charUpdate dt i c).velocity.2 < 0 := by
  have hhalf : c.velocity.2 * 0.5 < 0 := by nlinarith
  have hc0hs : (decayTimers dt c).hit_stun_timer ≤ 0 := by
    show max 0 (c.hit_stun_timer - dt) ≤ 0
    exact max_le le_rfl (by linarith)
  unfold charUpdate
  rw [inputPhase_run i (decayTimers dt c) hca hc0hs]
  unfold handleInput
  obtain ⟨b, hb⟩ := facingStep_eq i (decayTimers dt c)
  rw [hb]
  set c1 : CharState := { decayTimers dt c with facing_right := b } with hc1
  have h1air : c1.on_ground = false := hair
  have h1vy : c1.velocity.2 < 0 := hvy
  have h1st : c1.current_state = CState.jumping := hst
  obtain ⟨vx, hvx⟩ := moveStep_air_eq i c1 h1air
  rw [hvx]
  set c2 : CharState := { c1 with velocity := (vx, c1.velocity.2) } with hc2
  have h2air : c2.on_ground = false := h1air
  have h2vy : c2.velocity.2 < 0 := h1vy
  have h2st : c2.current_state = CState.jumping := h1st
  rw [jumpStep_skip i c2 hup]
  rw [jumpCutStep_cut i c2 hup h2vy h2st]
  set c3 : CharState := { c2 with velocity := (c2.velocity.1, c2.velocity.2 * 0.5) } with hc3
  have h3air : c3.on_ground = false := h2air
  have h3st : c3.current_state = CState.jumping := h2st
  have h3ncr : c3.current_state ≠ CState.crouching := by rw [h3st]; decide
  rw [crouchStep_skip_air i c3 h3air h3ncr]
  rw [attackStep_skip i c3 hatk]
  obtain ⟨co, hco⟩ := updatePhysics_air_eq dt c3 h3air
  rw [hco]
  set c4 : CharState := { c3 with coyote_time := co } with hc4
  have h4st : c4.current_state = CState.jumping := h3st
  have h4vy : c4.velocity.2 < 0 := hhalf
  have h4na : c4.is_attacking = false := hna
  rw [updateStateMachine_skip c4 (by rw [h4st]; decide)
    (fun hx => absurd hx.2 (not_lt.mpr (le_of_lt h4vy)))
    (by rw [h4st]; decide)]
  rw [attackFramePhase_skip c4 h4na]
  exact ⟨rfl, h4st, h3air, hca, h4na, hc0hs, hhalf⟩

lemma updateAttackTiming_none (c : CharState) (h : c.current_attack = none) :
    updateAttackTiming c = c := by
  unfold updateAttackTiming
  rw [h]

lemma attackFramePhase_attacking (c : CharState) (h : c.is_attacking = true) :
    attackFramePhase c =
      updateAttackTiming { c with attack_state_frames := c.attack_state_frames + 1 } := by
  unfold attackFramePhase
  rw [if_pos (by simp [h])]

/-- `perform_attack` with a direction outside the four handled strings:
the flag mutations happen, nothing else. -/
lemma basePerformAttack_unknown (dir : String) (c : CharState)
    (hca : c.can_act = true) (hna : c.is_attacking = false)
    (h1 : dir ≠ "neutral") (h2 : dir ≠ "side") (h3 : dir ≠ "up") (h4 : dir ≠ "down") :
    basePerformAttack dir c =
      { c with is_attacking := true, attack_state_frames := 0, can_act := false,
               attack_hitbox_created := false } := by
  unfold basePerformAttack
  rw [if_neg (by simp [hca, hna])]
  simp only []
  rw [if_neg h1, if_neg h2, if_neg h3, if_neg h4]

/-- One update tick on an action-locked character (cannot act, flagged
attacking, no attack descriptor, grounded and idle): every element of
the lock survives the tick, for any input and any time step. -/
lemma charUpdate_locked (dt : ℚ) (i : InputSnapshot) (c : CharState)
    (hca : c.can_act = false) (hat : c.is_attacking = true)
    (hcat : c.current_attack = none) (hst : c.current_state = CState.idle)
    (hg : c.on_ground = true) :
    (charUpdate dt i c).can_act = false ∧
    (charUpdate dt i c).is_attacking = true ∧
    (charUpdate dt i c).current_attack = none ∧
    (charUpdate dt i c).current_state = CState.idle ∧
    (charUpdate dt i c).on_ground = true := by
  have h0ca : (decayTimers dt c).can_act = false := hca
  have h0at : (decayTimers dt c).is_attacking = true := hat
  have h0cat : (decayTimers dt c).current_attack = none := hcat
  have h0st : (decayTimers dt c).current_state = CState.idle := hst
  have h0g : (decayTimers dt c).on_ground = true := hg
  unfold charUpdate
  rw [inputPhase_skip i (decayTimers dt c) h0ca]
  rw [updatePhysics_grounded_skip dt (decayTimers dt c) h0g (by rw [h0st]; decide)]
  rw [updateStateMachine_skip (decayTimers dt c) (by rw [h0st]; decide)
    (fun hx => by rw [h0st] at hx; exact absurd hx.1 (by decide))
    (by rw [h0st]; decide)]
  rw [attackFramePhase_attacking (decayTimers dt c) h0at]
  rw [updateAttackTiming_none
    { decayTimers dt c with
        attack_state_frames := (decayTimers dt c).attack_state_frames + 1 } hcat]
  exact ⟨hca, hat, hcat, hst, hg⟩

/-- The action-lock the claim describes: after the rejected-direction
attack, the flags are locked, and every later tick (any inputs, any time
steps) keeps them locked with the character grounded and idle. -/
def actionLockOutcome (c : CharState) (dir : String)
    (seq : ℕ → ℚ × InputSnapshot) : Prop :=
  (basePerformAttack dir c).is_attacking = true ∧
  (basePerformAttack dir c).can_act = false ∧
  (basePerformAttack dir c).current_attack = none ∧
  ∀ n, (runTicks seq (basePerformAttack dir c) n).can_act = false ∧
    (runTicks seq (basePerformAttack dir c) n).is_attacking = true ∧
    (runTicks seq (basePerformAttack dir c) n).current_attack = none ∧
    (runTicks seq (basePerformAttack dir c) n).current_state = CState.idle ∧
    (runTicks seq (basePerformAttack dir c) n).on_ground = true

/-- C10: calling the base `perform_attack` with a direction outside
`{'neutral', 'side', 'up', 'down'}` — as `get_attack_direction` produces
whenever grab is held — on an idle grounded character sets
`is_attacking` and clears `can_act` while leaving `current_attack =
None`; every subsequent update tick (no hits modelled, arbitrary inputs
and time steps, character stays grounded) keeps `can_act = false` and
`is_attacking = true` with no attack descriptor, so `end_attack` never
runs: the character is permanently action-locked. -/
theorem unknown_direction_attack_locks_character (c : CharState) (dir : String)
    (seq : ℕ → ℚ × InputSnapshot)
    (hca : c.can_act = true) (hna : c.is_attacking = false)
    (hcat : c.current_attack = none) (hst : c.current_state = CState.idle)
    (hg : c.on_ground = true)
    (h1 : dir ≠ "neutral") (h2 : dir ≠ "side") (h3 : dir ≠ "up") (h4 : dir ≠ "down") :
    actionLockOutcome c dir seq ∧
    (∀ i : InputSnapshot, i.cur.grab = true →
      getAttackDirection i ≠ "neutral" ∧ getAttackDirection i ≠ "side" ∧
      getAttackDirection i ≠ "up" ∧ getAttackDirection i ≠ "down") := by
  constructor
  · unfold actionLockOutcome
    rw [basePerformAttack_unknown dir c hca hna h1 h2 h3 h4]
    refine ⟨rfl, rfl, hcat, ?_⟩
    intro n
    induction n with
    | zero => exact ⟨rfl, rfl, hcat, hst, hg⟩
    | succ n ih =>
      exact charUpdate_locked (seq n).1 (seq n).2 _ ih.1 ih.2.1 ih.2.2.1 ih.2.2.2.1
        ih.2.2.2.2
  · intro i hgrab
    unfold getAttackDirection
    simp only [hgrab]
    split_ifs <;> exact ⟨by decide, by decide, by decide, by decide⟩

/-- A constant benign tick stream for witnesses. -/
def constSeq : ℕ → ℚ × InputSnapshot := fun _ => (1/60, noInput)

/-- Witness for C10: the freshly spawned grounded character performs a
`side_special` (the direction grab-held input produces). -/
theorem unknown_direction_attack_locks_character_witness :
    baseChar.can_act = true ∧ baseChar.current_attack = none ∧
    actionLockOutcome baseChar ("side_special") constSeq :=
  ⟨rfl, rfl,
    (unknown_direction_attack_locks_character baseChar ("side_special") constSeq
      rfl rfl rfl rfl rfl (by decide) (by decide) (by decide) (by decide)).1⟩

/-! ### Neutral-attack frame timeline (C3) -/

lemma changeState_position (ns : CState) (c : CharState) :
    (changeState ns c).position = c.position := by
  unfold changeState
  split_ifs <;> rfl

lemma changeState_velocity (ns : CState) (c : CharState) :
    (changeState ns c).velocity = c.velocity := by
  unfold changeState
  split_ifs <;> rfl

lemma changeState_facing_right (ns : CState) (c : CharState) :
    (changeState ns c).facing_right = c.facing_right := by
  unfold changeState
  split_ifs <;> rfl

lemma changeState_active_hitboxes (ns : CState) (c : CharState) :
    (changeState ns c).active_hitboxes = c.active_hitboxes := by
  unfold changeState
  split_ifs <;> rfl

lemma changeState_current_attack (ns : CState) (c : CharState) :
    (changeState ns c).current_attack = c.current_attack := by
  unfold changeState
  split_ifs <;> rfl

lemma changeState_attack_hitbox_created (ns : CState) (c : CharState) :
    (changeState ns c).attack_hitbox_created = c.attack_hitbox_created := by
  unfold changeState
  split_ifs <;> rfl

lemma changeState_current_state (ns : CState) (c : CharState) :
    (changeState ns c).current_state = ns := by
  unfold changeState
  split_ifs with h <;> first | exact h.symm | rfl

lemma changeState_on_ground (ns : CState) (c : CharState) (h : ns ≠ CState.falling) :
    (changeState ns c).on_ground = c.on_ground := by
  unfold changeState
  split_ifs with h1 h2 h3 h4 <;> first | rfl | exact absurd h4 h

lemma changeState_is_attacking (ns : CState) (c : CharState)
    (h : ¬(ns = CState.idle ∨ ns = CState.walking ∨ ns = CState.running)) :
    (changeState ns c).is_attacking = c.is_attacking := by
  unfold changeState
  split_ifs with h1 h2 h3 h4 <;> first | rfl | exact absurd h3 h

lemma changeState_can_act (ns : CState) (c : CharState) (hl : ns ≠ CState.landing)
    (h : ¬(ns = CState.idle ∨ ns = CState.walking ∨ ns = CState.running)) :
    (changeState ns c).can_act = c.can_act := by
  unfold changeState
  split_ifs with h1 h2 h3 h4 <;>
    first | rfl | exact absurd h2 hl | exact absurd h3 h

lemma changeState_attack_state_frames (ns : CState) (c : CharState)
    (h : ¬(ns = CState.idle ∨ ns = CState.walking ∨ ns = CState.running)) :
    (changeState ns c).attack_state_frames = c.attack_state_frames := by
  unfold changeState
  split_ifs with h1 h2 h3 h4 <;> first | rfl | exact absurd h3 h

/-- `change_state(IDLE)` from a different state: the idle arm fires. -/
lemma changeState_idle_eq (c : CharState) (h : c.current_state ≠ CState.idle) :
    changeState CState.idle c =
      { c with previous_state := c.current_state, current_state := CState.idle,
               state_timer := 0, can_act := true, is_attacking := false,
               attack_state_frames := 0 } := by
  unfold changeState
  rw [if_neg (fun he => h he.symm)]
  simp only []
  rw [if_neg (by decide), if_pos (by decide)]

/-- `change_state(FALLING)` from a different state: the falling arm
fires. -/
lemma changeState_falling_eq (c : CharState) (h : c.current_state ≠ CState.falling) :
    changeState CState.falling c =
      { c with previous_state := c.current_state, current_state := CState.falling,
               state_timer := 0, on_ground := false } := by
  unfold changeState
  rw [if_neg (fun he => h he.symm)]
  simp only []
  rw [if_neg (by decide), if_neg (by decide), if_pos (by decide)]

lemma updateAttackTiming_some (c : CharState) (a : Attack)
    (h : c.current_attack = some a) :
    updateAttackTiming c =
      (if c.attack_state_frames < a.startup_frames then c
       else if c.attack_state_frames < a.startup_frames + a.active_frames then
         (if ¬c.attack_hitbox_created then
           { createAttackHitbox c with attack_hitbox_created := true }
         else c)
       else if c.attack_state_frames ≥
           a.startup_frames + a.active_frames + a.recovery_frames then endAttack c
       else c) := by
  unfold updateAttackTiming
  rw [h]

/-- The hitbox the base neutral attack creates, as a function of the
attacker's position and facing. -/
def neutralHB (pos : ℚ × ℚ) (fr : Bool) : HB :=
  { x := pos.1 + (if fr then 60 else -60), y := pos.2 + -40, width := 50,
    height := 50, damage := neutralAttack.damage,
    knockback := neutralAttack.knockback,
    knockback_angle := getKnockbackAngle neutralAttack,
    frames_remaining := (neutralAttack.active_frames : ℤ) }

lemma createAttackHitbox_neutral (c : CharState)
    (h : c.current_attack = some neutralAttack) :
    createAttackHitbox c =
      { c with active_hitboxes :=
          c.active_hitboxes ++ [neutralHB c.position c.facing_right] } := by
  unfold createAttackHitbox
  rw [h]
  simp only []
  rw [if_neg (by decide), if_neg (by decide)]
  rfl

/-- `end_attack` from an attack state. -/
lemma endAttack_mid (c : CharState) (hst : c.current_state = CState.lightAttack) :
    endAttack c =
      (if c.on_ground = true then
        { c with is_attacking := false, can_act := true, current_attack := none,
                 attack_hitbox_created := false, previous_state := c.current_state,
                 current_state := CState.idle, state_timer := 0,
                 attack_state_frames := 0 }
      else
        { c with is_attacking := false, can_act := true, current_attack := none,
                 attack_hitbox_created := false, previous_state := c.current_state,
                 current_state := CState.falling, state_timer := 0,
                 on_ground := false }) := by
  unfold endAttack
  simp only []
  by_cases hg : c.on_ground = true
  · rw [if_pos (by simp [hg]), if_pos hg]
    rw [changeState_idle_eq _ (by rw [show _ = c.current_state from rfl, hst]; decide)]
  · rw [if_neg (by simp [hg]), if_neg hg]
    rw [changeState_falling_eq _ (by rw [show _ = c.current_state from rfl, hst]; decide)]

lemma updatePhysics_eq_coyote (dt : ℚ) (c : CharState)
    (h : c.current_state ≠ CState.falling) :
    ∃ co, updatePhysics dt c = { c with coyote_time := co } := by
  unfold updatePhysics
  obtain ⟨co, hco⟩ := coyoteStep_eq dt c
  rw [hco]
  rw [if_neg (by simp [h])]
  exact ⟨co, rfl⟩

/-- The state a mid-attack update tick hands to `update_attack_timing`:
timers decayed, coyote time at some value `co`, frame counter advanced. -/
def midTickState (dt co : ℚ) (c : CharState) : CharState :=
  { decayTimers dt c with
      coyote_time := co
      attack_state_frames := c.attack_state_frames + 1 }

/-- One `Character.update` tick mid-attack (cannot act, attacking, in the
LightAttack state): only the timers decay and the attack timing runs on
the incremented frame counter. -/
lemma charUpdate_midAttack (dt : ℚ) (i : InputSnapshot) (c : CharState)
    (hca : c.can_act = false) (hat : c.is_attacking = true)
    (hst : c.current_state = CState.lightAttack) :
    ∃ co, charUpdate dt i c = updateAttackTiming (midTickState dt co c) := by
  unfold charUpdate
  rw [inputPhase_skip i (decayTimers dt c) hca]
  obtain ⟨co, hco⟩ := updatePhysics_eq_coyote dt (decayTimers dt c)
    (by rw [show (decayTimers dt c).current_state = c.current_state from rfl, hst]; decide)
  rw [hco]
  have hRst : ({ decayTimers dt c with coyote_time := co } : CharState).current_state =
      CState.lightAttack := hst
  rw [updateStateMachine_skip { decayTimers dt c with coyote_time := co }
    (by rw [hRst]; decide)
    (fun hx => by rw [hRst] at hx; exact absurd hx.1 (by decide))
    (by rw [hRst]; decide)]
  rw [attackFramePhase_attacking { decayTimers dt c with coyote_time := co } hat]
  exact ⟨co, rfl⟩

/-- The mid-attack invariant after `n` ticks of the base neutral attack:
frame counter at `n`, exactly one hitbox appended from tick 6 on, the
geometry frozen. -/
def midAttackInv (c : CharState) (L : List HB) (g : Bool) (pos : ℚ × ℚ)
    (fr : Bool) (n : ℕ) : Prop :=
  c.is_attacking = true ∧ c.can_act = false ∧
  c.current_state = CState.lightAttack ∧
  c.current_attack = some neutralAttack ∧ c.attack_state_frames = n ∧
  c.on_ground = g ∧ c.position = pos ∧ c.facing_right = fr ∧
  c.attack_hitbox_created = decide (6 ≤ n) ∧
  c.active_hitboxes = L ++ (if 6 ≤ n then [neutralHB pos fr] else [])

/-- One mid-attack tick advances the invariant from frame `n` to
`n + 1`, for ticks strictly before the attack's end at frame 18. -/
lemma midAttack_step (dt : ℚ) (i : InputSnapshot) {c : CharState} {L : List HB}
    {g : Bool} {pos : ℚ × ℚ} {fr : Bool} {n : ℕ} (hn : n + 1 < 18)
    (hInv : midAttackInv c L g pos fr n) :
    midAttackInv (charUpdate dt i c) L g pos fr (n + 1) := by
  obtain ⟨hat, hca, hst, hcat, hfrm, hg, hpos, hfr2, hcrt, hact⟩ := hInv
  obtain ⟨co, hcu⟩ := charUpdate_midAttack dt i c hca hat hst
  rw [hcu]
  have hMca : (midTickState dt co c).current_attack = some neutralAttack := hcat
  have hMfrm : (midTickState dt co c).attack_state_frames = n + 1 := by
    show c.attack_state_frames + 1 = n + 1
    rw [hfrm]
  rw [updateAttackTiming_some (midTickState dt co c) neutralAttack hMca]
  by_cases h6 : n + 1 < 6
  · rw [if_pos (show (midTickState dt co c).attack_state_frames <
        neutralAttack.startup_frames by rw [hMfrm]; exact h6)]
    refine ⟨hat, hca, hst, hcat, hMfrm, hg, hpos, hfr2, ?_, ?_⟩
    · show c.attack_hitbox_created = decide (6 ≤ n + 1)
      rw [hcrt]
      simp only [decide_eq_decide]
      omega
    · show c.active_hitboxes = L ++ (if 6 ≤ n + 1 then [neutralHB pos fr] else [])
      rw [hact, if_neg (by omega), if_neg (by omega)]
  · by_cases h10 : n + 1 < 10
    · rw [if_neg (show ¬((midTickState dt co c).attack_state_frames <
          neutralAttack.startup_frames) by rw [hMfrm]; show ¬(n + 1 < 6); omega)]
      rw [if_pos (show (midTickState dt co c).attack_state_frames <
          neutralAttack.startup_frames + neutralAttack.active_frames by
            rw [hMfrm]; exact h10)]
      by_cases hc6 : n + 1 = 6
      · have hcrt0 : (midTickState dt co c).attack_hitbox_created = false := by
          show c.attack_hitbox_created = false
          rw [hcrt]
          simp only [decide_eq_false_iff_not]
          omega
        rw [if_pos (show ¬((midTickState dt co c).attack_hitbox_created = true) by
          rw [hcrt0]; simp)]
        rw [createAttackHitbox_neutral (midTickState dt co c) hMca]
        refine ⟨hat, hca, hst, hcat, hMfrm, hg, hpos, hfr2, ?_, ?_⟩
        · show true = decide (6 ≤ n + 1)
          rw [hc6]
          rfl
        · show c.active_hitboxes ++ [neutralHB c.position c.facing_right] =
            L ++ (if 6 ≤ n + 1 then [neutralHB pos fr] else [])
          rw [hact, hpos, hfr2, if_neg (by omega), if_pos (by omega),
            List.append_nil]
      · have hcrt1 : (midTickState dt co c).attack_hitbox_created = true := by
          show c.attack_hitbox_created = true
          rw [hcrt]
          simp only [decide_eq_true_eq]
          omega
        rw [if_neg (show ¬¬((midTickState dt co c).attack_hitbox_created = true) by
          rw [hcrt1]; simp)]
        refine ⟨hat, hca, hst, hcat, hMfrm, hg, hpos, hfr2, ?_, ?_⟩
        · show c.attack_hitbox_created = decide (6 ≤ n + 1)
          rw [hcrt]
          simp only [decide_eq_decide]
          omega
        · show c.active_hitboxes = L ++ (if 6 ≤ n + 1 then [neutralHB pos fr] else [])
          rw [hact, if_pos (by omega), if_pos (by omega)]
    · rw [if_neg (show ¬((midTickState dt co c).attack_state_frames <
          neutralAttack.startup_frames) by rw [hMfrm]; show ¬(n + 1 < 6); omega)]
      rw [if_neg (show ¬((midTickState dt co c).attack_state_frames <
          neutralAttack.startup_frames + neutralAttack.active_frames) by
            rw [hMfrm]; exact h10)]
      rw [if_neg (show ¬((midTickState dt co c).attack_state_frames ≥
          neutralAttack.startup_frames + neutralAttack.active_frames +
            neutralAttack.recovery_frames) by rw [hMfrm]; exact (by omega : ¬(n + 1 ≥ 18)))]
      refine ⟨hat, hca, hst, hcat, hMfrm, hg, hpos, hfr2, ?_, ?_⟩
      · show c.attack_hitbox_created = decide (6 ≤ n + 1)
        rw [hcrt]
        simp only [decide_eq_decide]
        omega
      · show c.active_hitboxes = L ++ (if 6 ≤ n + 1 then [neutralHB pos fr] else [])
        rw [hact, if_pos (by omega), if_pos (by omega)]

/-- The tick on which `attack_state_frames` reaches 18: `end_attack`
runs, restoring action and picking Idle or Falling by ground state. -/
lemma midAttack_final (dt : ℚ) (i : InputSnapshot) {c : CharState} {L : List HB}
    {g : Bool} {pos : ℚ × ℚ} {fr : Bool} (hInv : midAttackInv c L g pos fr 17) :
    (charUpdate dt i c).is_attacking = false ∧
    (charUpdate dt i c).can_act = true ∧
    (charUpdate dt i c).current_attack = none ∧
    (charUpdate dt i c).current_state = (if g = true then CState.idle else CState.falling) ∧
    (charUpdate dt i c).active_hitboxes = L ++ [neutralHB pos fr] := by
  obtain ⟨hat, hca, hst, hcat, hfrm, hg, hpos, hfr2, hcrt, hact⟩ := hInv
  obtain ⟨co, hcu⟩ := charUpdate_midAttack dt i c hca hat hst
  rw [hcu]
  have hMca : (midTickState dt co c).current_attack = some neutralAttack := hcat
  have hMfrm : (midTickState dt co c).attack_state_frames = 18 := by
    show c.attack_state_frames + 1 = 18
    rw [hfrm]
  rw [updateAttackTiming_some (midTickState dt co c) neutralAttack hMca]
  rw [if_neg (show ¬((midTickState dt co c).attack_state_frames <
      neutralAttack.startup_frames) by rw [hMfrm]; show ¬(18 < 6); omega)]
  rw [if_neg (show ¬((midTickState dt co c).attack_state_frames <
      neutralAttack.startup_frames + neutralAttack.active_frames) by
        rw [hMfrm]; exact (by omega : ¬(18 < 10)))]
  rw [if_pos (show (midTickState dt co c).attack_state_frames ≥
      neutralAttack.startup_frames + neutralAttack.active_frames +
        neutralAttack.recovery_frames by rw [hMfrm]; exact (by omega : 18 ≥ 18))]
  rw [endAttack_mid (midTickState dt co c) hst]
  have hMg : (midTickState dt co c).on_ground = g := hg
  have hacts : c.active_hitboxes = L ++ [neutralHB pos fr] := by
    rw [hact, if_pos (by omega)]
  by_cases hgb : g = true
  · rw [if_pos (by rw [hMg, hgb])]
    exact ⟨rfl, rfl, rfl, by rw [if_pos hgb], hacts⟩
  · rw [if_neg (by rw [hMg]; exact fun he => hgb he)]
    exact ⟨rfl, rfl, rfl, by rw [if_neg hgb], hacts⟩

/-- `perform_attack('neutral')` establishes the invariant at frame 0. -/
lemma basePerformAttack_neutral_inv (c : CharState) (hca : c.can_act = true)
    (hna : c.is_attacking = false) :
    midAttackInv (basePerformAttack ("neutral") c) c.active_hitboxes
      c.on_ground c.position c.facing_right 0 := by
  unfold basePerformAttack
  rw [if_neg (by simp [hca, hna])]
  simp only [if_true]
  refine ⟨?_, ?_, ?_, rfl, ?_, ?_, ?_, ?_, rfl, ?_⟩
  · show (changeState CState.lightAttack _).is_attacking = true
    rw [changeState_is_attacking _ _ (by decide)]
  · show (changeState CState.lightAttack _).can_act = false
    rw [changeState_can_act _ _ (by decide) (by decide)]
  · exact changeState_current_state _ _
  · show (changeState CState.lightAttack _).attack_state_frames = 0
    rw [changeState_attack_state_frames _ _ (by decide)]
  · show (changeState CState.lightAttack _).on_ground = c.on_ground
    rw [changeState_on_ground _ _ (by decide)]
  · exact changeState_position _ _
  · exact changeState_facing_right _ _
  · show (changeState CState.lightAttack _).active_hitboxes =
      c.active_hitboxes ++ (if 6 ≤ 0 then [neutralHB c.position c.facing_right] else [])
    rw [changeState_active_hitboxes, if_neg (by omega), List.append_nil]

/-- The full frame timeline the claim asserts for the base neutral attack
(`startup=6, active=4, recovery=8`): strictly fewer hitboxes before tick
6, exactly one appended from tick 6 through the end, attack over at tick
18 with the Idle/Falling return. -/
def neutralAttackTimeline (c : CharState) (seq : ℕ → ℚ × InputSnapshot) : Prop :=
  (∀ n, n ≤ 17 →
    (runTicks seq (basePerformAttack ("neutral") c) n).is_attacking = true ∧
    (runTicks seq (basePerformAttack ("neutral") c) n).active_hitboxes =
      c.active_hitboxes ++
        (if 6 ≤ n then [neutralHB c.position c.facing_right] else [])) ∧
  ((runTicks seq (basePerformAttack ("neutral") c) 18).is_attacking = false ∧
   (runTicks seq (basePerformAttack ("neutral") c) 18).can_act = true ∧
   (runTicks seq (basePerformAttack ("neutral") c) 18).current_attack = none ∧
   (runTicks seq (basePerformAttack ("neutral") c) 18).current_state =
     (if c.on_ground = true then CState.idle else CState.falling) ∧
   (runTicks seq (basePerformAttack ("neutral") c) 18).active_hitboxes =
     c.active_hitboxes ++ [neutralHB c.position c.facing_right])

/-- C3: for the base neutral attack (`startup=6, active=4, recovery=8`)
started by `perform_attack` on an actionable character, exactly one
hitbox is appended to `active_hitboxes`, on exactly the update tick at
which `attack_state_frames` becomes 6 — not before and not again later —
and on the tick the counter reaches 18 the attack ends through
`end_attack`, leaving Idle when grounded and Falling when airborne.
Inputs and time steps during the attack are arbitrary. -/
theorem neutral_attack_frame_timeline (c : CharState)
    (seq : ℕ → ℚ × InputSnapshot) (hca : c.can_act = true)
    (hna : c.is_attacking = false) : neutralAttackTimeline c seq := by
  have hinv : ∀ n, n ≤ 17 →
      midAttackInv (runTicks seq (basePerformAttack ("neutral") c) n)
        c.active_hitboxes c.on_ground c.position c.facing_right n := by
    intro n
    induction n with
    | zero => exact fun _ => basePerformAttack_neutral_inv c hca hna
    | succ n ih =>
      intro hle
      exact midAttack_step (seq n).1 (seq n).2 (by omega) (ih (by omega))
  constructor
  · intro n hle
    obtain ⟨hat, _, _, _, _, _, _, _, _, hact⟩ := hinv n hle
    exact ⟨hat, hact⟩
  · exact midAttack_final (seq 17).1 (seq 17).2 (hinv 17 (by omega))

/-- Witness for C3: the freshly spawned grounded character performs a
neutral attack under the benign tick stream. -/
theorem neutral_attack_frame_timeline_witness :
    baseChar.can_act = true ∧ baseChar.is_attacking = false ∧
    neutralAttackTimeline baseChar constSeq :=
  ⟨rfl, rfl, neutral_attack_frame_timeline baseChar constSeq rfl rfl⟩

/-- The outcome the amended jump-cut claim asserts for one tick. -/
def jumpCutOutcome (dt : ℚ) (i : InputSnapshot) (c : CharState) : Prop :=
  (charUpdate dt i c).velocity.2 = c.velocity.2 * 0.5 ∧
  (charUpdate dt i c).current_state = CState.jumping ∧
  (charUpdate dt i c).on_ground = false ∧
  (charUpdate dt i c).can_act = true ∧
  (charUpdate dt i c).is_attacking = false ∧
  (charUpdate dt i c).hit_stun_timer ≤ 0 ∧
  (charUpdate dt i c).velocity.2 < 0

/-- C8 as amended: on every update tick on which the character is
ascending (`velocity.y < 0`) in the Jumping state, airborne, able to act
and the jump button is not held (and no fresh attack input arrives), the
upward velocity is halved — and all those conditions still hold after
the tick, so the cut repeats every tick of the ascent rather than
applying once per jump. -/
theorem jump_cut_halves_every_ascending_tick (dt : ℚ) (i : InputSnapshot)
    (c : CharState) (hdt : 0 ≤ dt) (hca : c.can_act = true)
    (hhs : c.hit_stun_timer ≤ 0) (hair : c.on_ground = false)
    (hst : c.current_state = CState.jumping) (hvy : c.velocity.2 < 0)
    (hna : c.is_attacking = false) (hup : i.cur.up = false)
    (hatk : ¬(i.cur.attack = true ∧ i.prev.attack = false)) :
    jumpCutOutcome dt i c :=
  charUpdate_jump_cut dt i c hdt hca hhs hair hst hvy hna hup hatk

/-- Witness for the amended C8 at the concrete jumper. -/
theorem jump_cut_halves_every_ascending_tick_witness :
    jumper.can_act = true ∧ jumper.velocity.2 < 0 ∧
    jumpCutOutcome (1/60) noInput jumper :=
  ⟨rfl, by norm_num [jumper, baseChar],
    jump_cut_halves_every_ascending_tick (1/60) noInput jumper
      (by norm_num) rfl (le_of_eq rfl) rfl rfl
      (by norm_num [jumper, baseChar]) rfl rfl
      (by simp [noInput])⟩

/-- C8 counterexample: the claim says the upward velocity is halved
exactly once per jump.  On two consecutive ticks with the button
released, the jumper's `-8` becomes `-4` and then `-2`: the second tick
halves again. -/
theorem jump_cut_halves_twice_counterexample :
    (charUpdate (1/60) noInput jumper).velocity.2 = -4 ∧
    (charUpdate (1/60) noInput (charUpdate (1/60) noInput jumper)).velocity.2 = -2 := by
  have h8 : jumper.velocity.2 = -8 := rfl
  have h1 := charUpdate_jump_cut (1/60) noInput jumper
    (by norm_num) rfl (le_of_eq rfl) rfl rfl (by norm_num [jumper, baseChar]) rfl rfl
    (by simp [noInput])
  have he1 : (charUpdate (1/60) noInput jumper).velocity.2 = -4 := by
    rw [h1.1, h8]; norm_num
  refine ⟨he1, ?_⟩
  have h2 := charUpdate_jump_cut (1/60) noInput (charUpdate (1/60) noInput jumper)
    (by norm_num) h1.2.2.2.1 h1.2.2.2.2.2.1 h1.2.2.1 h1.2.1 h1.2.2.2.2.2.2
    h1.2.2.2.2.1 rfl (by simp [noInput])
  rw [h2.1, he1]; norm_num

/-! ### Damage-path lemmas -/

lemma dmgChangeState_damage_percent (ns : CState) (c : DChar) :
    (dmgChangeState ns c).damage_percent = c.damage_percent := by
  unfold dmgChangeState
  split_ifs <;> rfl

lemma dmgChangeState_velocity (ns : CState) (c : DChar) :
    (dmgChangeState ns c).velocity = c.velocity := by
  unfold dmgChangeState
  split_ifs <;> rfl

lemma dmgChangeState_hit_stun_timer (ns : CState) (c : DChar) :
    (dmgChangeState ns c).hit_stun_timer = c.hit_stun_timer := by
  unfold dmgChangeState
  split_ifs <;> rfl

lemma dmgChangeState_invincibility_timer (ns : CState) (c : DChar) :
    (dmgChangeState ns c).invincibility_timer = c.invincibility_timer := by
  unfold dmgChangeState
  split_ifs <;> rfl

lemma dmgChangeState_current_state (ns : CState) (c : DChar) :
    (dmgChangeState ns c).current_state = ns := by
  unfold dmgChangeState
  split_ifs with h <;> first | exact h.symm | rfl

lemma dmgChangeState_hitStun_can_act (c : DChar) :
    (dmgChangeState CState.hitStun c).can_act = c.can_act := by
  unfold dmgChangeState
  split_ifs with h1 h2 h3 <;> simp_all

/-- The full outcome of one `take_damage` call as the specification states
it: damage added exactly, knockback impulse scaled by the post-hit
multiplier over weight, hitstun formula, action lock, 0.3s invincibility
and the HitStun transition. -/
def takeDamageOutcome (d : ℝ) (kb : ℝ × ℝ) (c : DChar) : Prop :=
  (takeDamage d kb c).damage_percent = c.damage_percent + d ∧
  (takeDamage d kb c).velocity.1 =
    c.velocity.1 + kb.1 * (1 + (c.damage_percent + d) / 70 +
      (if c.damage_percent + d > 100 then
        ((c.damage_percent + d - 80) / 50) ^ (1.5 : ℝ) else 0)) / c.weight ∧
  (takeDamage d kb c).velocity.2 =
    c.velocity.2 + kb.2 * (1 + (c.damage_percent + d) / 70 +
      (if c.damage_percent + d > 100 then
        ((c.damage_percent + d - 80) / 50) ^ (1.5 : ℝ) else 0)) / c.weight ∧
  (takeDamage d kb c).hit_stun_timer = (d + (c.damage_percent + d) * 0.02) * 0.01 ∧
  (takeDamage d kb c).can_act = false ∧
  (takeDamage d kb c).invincibility_timer = 0.3 ∧
  (takeDamage d kb c).current_state = CState.hitStun

/-- C1: with both invincibility timers at zero (and, on the base
`Character`, no armor exists), `take_damage d kb` adds exactly `d` to
`damage_percent`, adds `kb * m / weight` to the velocity componentwise
with `m = 1 + p/70` plus `((p-80)/50)^1.5` when `p > 100` (`p` the
post-hit percent), sets `hit_stun_timer = (d + p*0.02) * 0.01`, clears
`can_act`, grants 0.3s invincibility and transitions to HitStun. -/
theorem take_damage_exact_outcome (d : ℝ) (kb : ℝ × ℝ) (c : DChar)
    (h1 : c.invincibility_timer = 0) (h2 : c.respawn_invincibility = 0) :
    takeDamageOutcome d kb c := by
  unfold takeDamageOutcome takeDamage
  rw [if_neg (by rw [h1, h2]; simp)]
  simp only [dmgChangeState_damage_percent, dmgChangeState_velocity,
    dmgChangeState_hit_stun_timer, dmgChangeState_hitStun_can_act,
    dmgChangeState_invincibility_timer, dmgChangeState_current_state]
  refine ⟨trivial, ?_, ?_, trivial, trivial, trivial, trivial⟩ <;>
    · split_ifs <;> ring

/-- A concrete undamaged victim for the C1 witness. -/
noncomputable def dmgVictim : DChar :=
  { damage_percent := 0, velocity := (0, 0), weight := 1,
    hit_stun_timer := 0, invincibility_timer := 0, respawn_invincibility := 0,
    can_act := true, is_attacking := false, attack_state_frames := 0,
    on_ground := true, hit_flash_timer := 0, screen_shake_intensity := 0,
    current_state := CState.idle, previous_state := CState.idle, state_timer := 0 }

/-- Witness for C1 at a concrete hit. -/
theorem take_damage_exact_outcome_witness :
    dmgVictim.invincibility_timer = 0 ∧ dmgVictim.respawn_invincibility = 0 ∧
    takeDamageOutcome 10 (7, -3) dmgVictim :=
  ⟨rfl, rfl, take_damage_exact_outcome 10 (7, -3) dmgVictim rfl rfl⟩

/-- C2 counterexample state: a Heavy with active super armor while its
hit-invincibility timer is still running. -/
noncomputable def armoredInvincibleHeavy : HeavyDChar :=
  { toDChar := { dmgVictim with invincibility_timer := 0.3 },
    has_super_armor := true, damage_multiplier := 1 }

/-- C2 counterexample: the claim says any `take_damage` call made while
`invincibility_timer > 0` is a complete no-op for every character
including the Heavy super-armor override; but on this invincible armored
Heavy the call raises `damage_percent` from 0 to 10, because
`Heavy.take_damage` tests `has_super_armor` before the invincibility
guard. -/
theorem heavy_superarmor_ignores_invincibility :
    armoredInvincibleHeavy.invincibility_timer > 0 ∧
    armoredInvincibleHeavy.has_super_armor = true ∧
    armoredInvincibleHeavy.damage_percent = 0 ∧
    (heavyTakeDamage 10 (0, 0) armoredInvincibleHeavy).damage_percent = 10 := by
  refine ⟨by norm_num [armoredInvincibleHeavy, dmgVictim], rfl, rfl, ?_⟩
  unfold heavyTakeDamage
  rw [if_pos (show armoredInvincibleHeavy.has_super_armor = true by rfl)]
  show armoredInvincibleHeavy.damage_percent + 10 * armoredInvincibleHeavy.damage_multiplier = 10
  norm_num [armoredInvincibleHeavy, dmgVictim]

/-- C2 as amended: invincibility is a complete no-op for the base
`take_damage` and for a Heavy without active super armor; a Heavy with
active super armor instead takes `damage * damage_multiplier` percent
(and a hit flash) regardless of invincibility. -/
theorem invincibility_noop_without_superarmor :
    (∀ (d : ℝ) (kb : ℝ × ℝ) (c : DChar),
        c.invincibility_timer > 0 ∨ c.respawn_invincibility > 0 →
        takeDamage d kb c = c) ∧
    (∀ (d : ℝ) (kb : ℝ × ℝ) (h : HeavyDChar), h.has_super_armor = false →
        (h.invincibility_timer > 0 ∨ h.respawn_invincibility > 0) →
        heavyTakeDamage d kb h = h) ∧
    (∀ (d : ℝ) (kb : ℝ × ℝ) (h : HeavyDChar), h.has_super_armor = true →
        heavyTakeDamage d kb h =
          { h with damage_percent := h.damage_percent + d * h.damage_multiplier,
                   hit_flash_timer := 0.1 }) := by
  refine ⟨?_, ?_, ?_⟩
  · intro d kb c hinv
    unfold takeDamage
    rw [if_pos hinv]
  · intro d kb h harm hinv
    unfold heavyTakeDamage
    rw [if_neg (by rw [harm]; exact Bool.false_ne_true)]
    have : takeDamage d kb h.toDChar = h.toDChar := by
      unfold takeDamage
      rw [if_pos hinv]
    rw [this]
  · intro d kb h harm
    unfold heavyTakeDamage
    rw [if_pos harm]

/-- Witness for the amended C2 at a concrete invincible character. -/
theorem invincibility_noop_without_superarmor_witness :
    ({ dmgVictim with invincibility_timer := 0.3 } : DChar).invincibility_timer > 0 ∧
    takeDamage 10 (7, -3) { dmgVictim with invincibility_timer := 0.3 } =
      { dmgVictim with invincibility_timer := 0.3 } :=
  ⟨by norm_num, invincibility_noop_without_superarmor.1 10 (7, -3) _
    (Or.inl (by norm_num))⟩

/-- C7: a cooldown-rejected archetype attack is not a no-op.  With every
cooldown positive, Speedster's side, side-special and up attacks and
Heavy's up-special all return with `is_attacking = true` and
`can_act = false` (current attack and state untouched), because the flag
mutations precede the cooldown check. -/
theorem cooldown_rejection_mutates_flags :
    ((speedsterPerformAttack ("side") spdOnCooldown).is_attacking = true ∧
     (speedsterPerformAttack ("side") spdOnCooldown).can_act = false ∧
     (speedsterPerformAttack ("side") spdOnCooldown).current_attack = none ∧
     (speedsterPerformAttack ("side") spdOnCooldown).current_state = CState.idle) ∧
    ((speedsterPerformAttack ("side_special") spdOnCooldown).is_attacking = true ∧
     (speedsterPerformAttack ("side_special") spdOnCooldown).can_act = false ∧
     (speedsterPerformAttack ("side_special") spdOnCooldown).current_attack = none ∧
     (speedsterPerformAttack ("side_special") spdOnCooldown).current_state = CState.idle) ∧
    ((speedsterPerformAttack ("up") spdOnCooldown).is_attacking = true ∧
     (speedsterPerformAttack ("up") spdOnCooldown).can_act = false ∧
     (speedsterPerformAttack ("up") spdOnCooldown).current_attack = none ∧
     (speedsterPerformAttack ("up") spdOnCooldown).current_state = CState.idle) ∧
    heavyPerformAttack ("up") heavyOnCooldown = some heavyAfterRejection := by
  refine ⟨⟨?_, ?_, ?_, ?_⟩, ⟨?_, ?_, ?_, ?_⟩, ⟨?_, ?_, ?_, ?_⟩, ?_⟩ <;> decide

end Fighter
